import Mathlib

/-!
# Online schema change: `schemachange/schemachange.c`

A shallow embedding of the live-sync interceptors (`live_sc_post_add`,
`live_sc_post_delete`, `live_sc_post_update`), of the orchestration entry
points (`start_schema_change`, `finalize_schema_change`), of the recovery
bootstrap (`add_schema_change_tables`, `add_table_for_recovery`), of `dryrun`,
of the partition exchange (`handle_partition`, `do_partition`) and of
`sc_timepart_drop_table`.

Every C function becomes a total Lean function that returns the C return value
together with the list of collaborator calls it made, in program order. A call
that can end in `abort()` returns an outcome: a status, or process abort.
Collaborators that live outside `schemachange.c` are fields of an environment
record: they supply the value each call returns.
-/

namespace Schemachange

/-! ## Live-sync interceptors -/

/-- Collaborator calls and memory reads made by the interceptors. The payload
arguments (record images, key bitmaps, blobs, rrn) are forwarded unchanged by the
C code and are not part of the event. -/
inductive LiveEvent
  | logmsg_error
  | read_sc_genids (stripe : Int)
  | reqpushprefixf
  | reqprintf (case_no : Nat)
  | reqpopprefixes
  | live_sc_post_add_int (genid : Nat)
  | live_sc_post_delete_int (genid : Nat)
  | live_sc_post_update_int (oldgenid newgenid : Nat) (updCols : List Int)
  deriving DecidableEq, Repr

/-- The part of `struct db` the modelled functions look at. For the
interceptors: whether `sc_from` points back at the table itself, and the cursor
array `sc_to->sc_genids` (raw memory in C, so a function of the index). For
recovery and dry run: the storage settings of the table, C `int` fields. -/
structure db where
  sc_from_is_self : Bool := false
  sc_genids : Int → Nat := fun _ => 0
  dbnum : Int := 0
  dtastripe : Int := 0
  odh : Int := 0
  inplace_updates : Int := 0
  instant_schema_change : Int := 0
  version : Int := 0

/-- The part of `struct ireq` the interceptors look at. -/
structure ireq where
  usedb : db
  debug : Bool

/-- Globals and collaborators of the interceptors: the `sc_live` flag,
`gbl_dtastripe`, the stripe locator, and the status each `*_int` worker
returns. -/
structure LiveGlobals where
  sc_live : Bool
  gbl_dtastripe : Int
  get_dtafile_from_genid : Nat → Int
  post_add_int_rc : Nat → Int
  post_delete_int_rc : Nat → Int
  post_update_int_rc : Nat → Nat → Int

/-- Return value and call trace of an interceptor. -/
structure LiveRet where
  rc : Int
  trace : List LiveEvent
  deriving DecidableEq, Repr

/-- Modelled from the spec: `is_genid_right_of_stripe_pointer` is declared
outside `schemachange.c`; the spec reads it as "genid is strictly past the
stripe cursor", the cursor being a watermark at or below which records are
already migrated. The callers bind its result to variables named
`is_gen_gt_scptr`, `is_oldgen_gt_scptr` and `is_newgen_gt_scptr`. The storage
handle argument is dropped. -/
def is_genid_right_of_stripe_pointer (genid stripe_ptr : Nat) : Bool :=
  decide (stripe_ptr < genid)

/-- Embedding of `live_sc_post_delete` (schemachange.c:357-392). -/
def live_sc_post_delete (G : LiveGlobals) (iq : ireq) (genid : Nat) : LiveRet :=
  if !(G.sc_live && iq.usedb.sc_from_is_self) then
    ⟨0, []⟩
  else
    let stripe := G.get_dtafile_from_genid genid
    if stripe < 0 ∨ stripe ≥ G.gbl_dtastripe then
      ⟨0, [.logmsg_error]⟩
    else
      let sc_genids := iq.usedb.sc_genids
      if sc_genids stripe = 0 then
        ⟨0, [.read_sc_genids stripe]⟩
      else
        let is_gen_gt_scptr := is_genid_right_of_stripe_pointer genid (sc_genids stripe)
        if is_gen_gt_scptr then
          ⟨0, [.read_sc_genids stripe, .read_sc_genids stripe]⟩
        else
          ⟨G.post_delete_int_rc genid,
            [.read_sc_genids stripe, .read_sc_genids stripe, .live_sc_post_delete_int genid]⟩

/-- Embedding of `live_sc_post_add` (schemachange.c:394-422). -/
def live_sc_post_add (G : LiveGlobals) (iq : ireq) (genid : Nat) : LiveRet :=
  if !G.sc_live || !iq.usedb.sc_from_is_self then
    ⟨0, []⟩
  else
    let stripe := G.get_dtafile_from_genid genid
    if stripe < 0 ∨ stripe ≥ G.gbl_dtastripe then
      ⟨0, [.logmsg_error]⟩
    else
      let sc_genids := iq.usedb.sc_genids
      if sc_genids stripe = 0 then
        ⟨0, [.read_sc_genids stripe]⟩
      else if is_genid_right_of_stripe_pointer genid (sc_genids stripe) then
        ⟨0, [.read_sc_genids stripe, .read_sc_genids stripe]⟩
      else
        ⟨G.post_add_int_rc genid,
          [.read_sc_genids stripe, .read_sc_genids stripe, .live_sc_post_add_int genid]⟩

/-- The debug prints of `live_sc_post_update`, emitted only when `iq->debug`. -/
def dbg (iq : ireq) (e : LiveEvent) : List LiveEvent :=
  if iq.debug then [e] else []

/-- The case print of `live_sc_post_update`, emitted only when `iq->debug`: its
arguments include `sc_genids[stripe]`, one more read of the cursor array. -/
def dbg_case (iq : ireq) (stripe : Int) (case_no : Nat) : List LiveEvent :=
  dbg iq (.read_sc_genids stripe) ++ dbg iq (.reqprintf case_no)

/-- Embedding of `live_sc_post_update` (schemachange.c:456-534). The stripe is computed from
the old genid only; both genids are compared with that stripe's cursor. -/
def live_sc_post_update (G : LiveGlobals) (iq : ireq) (oldgenid newgenid : Nat)
    (updCols : List Int) : LiveRet :=
  if !(G.sc_live && iq.usedb.sc_from_is_self) then
    ⟨0, []⟩
  else
    let stripe := G.get_dtafile_from_genid oldgenid
    if stripe < 0 ∨ stripe ≥ G.gbl_dtastripe then
      ⟨0, [.logmsg_error]⟩
    else
      let sc_genids := iq.usedb.sc_genids
      if sc_genids stripe = 0 then
        ⟨0, [.read_sc_genids stripe]⟩
      else
        let t0 := [LiveEvent.read_sc_genids stripe] ++ dbg iq .reqpushprefixf
        let is_oldgen_gt_scptr := is_genid_right_of_stripe_pointer oldgenid (sc_genids stripe)
        let is_newgen_gt_scptr := is_genid_right_of_stripe_pointer newgenid (sc_genids stripe)
        let t1 := t0 ++ [.read_sc_genids stripe, .read_sc_genids stripe]
        let fin := dbg iq .reqpopprefixes
        if is_newgen_gt_scptr && is_oldgen_gt_scptr then
          ⟨0, t1 ++ dbg_case iq stripe 1 ++ fin⟩
        else if is_newgen_gt_scptr && !is_oldgen_gt_scptr then
          ⟨G.post_delete_int_rc oldgenid,
            t1 ++ dbg_case iq stripe 2 ++ [.live_sc_post_delete_int oldgenid] ++ fin⟩
        else if !is_newgen_gt_scptr && is_oldgen_gt_scptr then
          ⟨G.post_add_int_rc newgenid,
            t1 ++ dbg_case iq stripe 3 ++ [.live_sc_post_add_int newgenid] ++ fin⟩
        else if !is_newgen_gt_scptr && !is_oldgen_gt_scptr then
          ⟨G.post_update_int_rc oldgenid newgenid,
            t1 ++ dbg_case iq stripe 4
              ++ [.live_sc_post_update_int oldgenid newgenid updCols] ++ fin⟩
        else
          ⟨0, t1 ++ fin⟩

/-- Whether an event is an operation mirrored into the shadow table. -/
def LiveEvent.isMirror : LiveEvent → Bool
  | .live_sc_post_add_int _ => true
  | .live_sc_post_delete_int _ => true
  | .live_sc_post_update_int _ _ _ => true
  | _ => false

/-- The operations an interceptor call mirrored into the shadow table, in order. -/
def mirrored (r : LiveRet) : List LiveEvent :=
  r.trace.filter LiveEvent.isMirror

/-- The indices at which a call read the cursor array, in order. -/
def cursorReads (r : LiveRet) : List Int :=
  r.trace.filterMap fun e =>
    match e with
    | .read_sc_genids i => some i
    | _ => none

/-- A sample configuration: four stripes, the locator takes the genid modulo 4,
every mirrored operation succeeds. -/
def sampleGlobals : LiveGlobals where
  sc_live := true
  gbl_dtastripe := 4
  get_dtafile_from_genid := fun g => ((g % 4 : Nat) : Int)
  post_add_int_rc := fun _ => 0
  post_delete_int_rc := fun _ => 0
  post_update_int_rc := fun _ _ => 0

/-- A configuration with one stripe whose mirrored operations report distinct
statuses, so that a returned status identifies the operation it came from. -/
def statusGlobals : LiveGlobals where
  sc_live := true
  gbl_dtastripe := 1
  get_dtafile_from_genid := fun _ => 0
  post_add_int_rc := fun _ => 11
  post_delete_int_rc := fun _ => 12
  post_update_int_rc := fun _ _ => 13

/-- A live-linked origin table whose every stripe cursor is `cursor`. -/
def linkedReq (cursor : Nat) (debug : Bool) : ireq where
  usedb := { sc_from_is_self := true, sc_genids := fun _ => cursor }
  debug := debug

/-- The routing of `live_sc_post_add` in the words of the specification: an add
is mirrored, and its status returned, when the genid is strictly past the
cursor of its stripe; otherwise nothing is mirrored and 0 is returned. -/
def post_add_routing_as_specified (G : LiveGlobals) (iq : ireq) (genid : Nat) : Prop :=
  (iq.usedb.sc_genids (G.get_dtafile_from_genid genid) < genid →
    mirrored (live_sc_post_add G iq genid) = [.live_sc_post_add_int genid] ∧
    (live_sc_post_add G iq genid).rc = G.post_add_int_rc genid) ∧
  (genid ≤ iq.usedb.sc_genids (G.get_dtafile_from_genid genid) →
    mirrored (live_sc_post_add G iq genid) = [] ∧ (live_sc_post_add G iq genid).rc = 0)

/-! ## Exactly-once model: origin table, shadow table and the background copier -/

/-- One stripe of a table under migration: the genids of the origin table, the
genids of the shadow table (with multiplicity) and the progress cursor of that
stripe, `sc_to->sc_genids[stripe]`. -/
structure TableState where
  origin : List Nat
  shadow : List Nat
  cursor : Nat
  deriving DecidableEq, Repr

/-- Modelled from the spec: the effect of a mirrored operation on the shadow
table. The workers `live_sc_post_add_int`, `live_sc_post_delete_int` and
`live_sc_post_update_int` are outside `schemachange.c`; the spec has them add
the record, delete the record, and transform shadow(old) into shadow(new). -/
def applyMirror (shadow : List Nat) : LiveEvent → List Nat
  | .live_sc_post_add_int g => g :: shadow
  | .live_sc_post_delete_int g => shadow.erase g
  | .live_sc_post_update_int o n _ => n :: shadow.erase o
  | _ => shadow

/-- The request a DML on the origin table of `σ` carries: the table is the
origin of the migration and entry `st` of its shadow's cursor array is the
cursor of `σ` (the other stripes have not started). -/
def TableState.iq (st : Int) (σ : TableState) (debug : Bool) : ireq where
  usedb := { sc_from_is_self := true, sc_genids := fun i => if i = st then σ.cursor else 0 }
  debug := debug

/-- Steps of the interleaving: a copier step that copies up to `upto`, or a
live DML on the origin table. -/
inductive Op
  | copy (upto : Nat)
  | add (genid : Nat)
  | del (genid : Nat)
  | upd (oldgenid newgenid : Nat) (updCols : List Int)
  deriving DecidableEq, Repr

/-- Modelled from the spec: the background copier is outside `schemachange.c`.
One copier step durably writes every origin record of the range
`(cursor, upto]` into the shadow and then advances the cursor to `upto`; the
cursor never moves backwards. -/
def copier_step (σ : TableState) (upto : Nat) : Option TableState :=
  if σ.cursor ≤ upto then
    some
      { origin := σ.origin
        shadow := σ.shadow ++ σ.origin.filter fun g => decide (σ.cursor < g ∧ g ≤ upto)
        cursor := upto }
  else none

/-- A committed live insert of `genid`: the origin gains the record, then
`live_sc_post_add` runs in the same transaction and its mirrored operations are
applied to the shadow. A transaction whose interceptor reports a nonzero status
aborts and is not a step. Genids are nonzero, unique and belong to stripe `st`. -/
def dml_add (G : LiveGlobals) (st : Int) (debug : Bool) (σ : TableState) (genid : Nat) :
    Option TableState :=
  if genid ≠ 0 ∧ genid ∉ σ.origin ∧ G.get_dtafile_from_genid genid = st then
    let r := live_sc_post_add G (σ.iq st debug) genid
    if r.rc = 0 then
      some { σ with origin := genid :: σ.origin, shadow := (mirrored r).foldl applyMirror σ.shadow }
    else none
  else none

/-- A committed live delete of `genid`, routed through `live_sc_post_delete`. -/
def dml_del (G : LiveGlobals) (st : Int) (debug : Bool) (σ : TableState) (genid : Nat) :
    Option TableState :=
  if genid ∈ σ.origin ∧ G.get_dtafile_from_genid genid = st then
    let r := live_sc_post_delete G (σ.iq st debug) genid
    if r.rc = 0 then
      some { σ with origin := σ.origin.erase genid, shadow := (mirrored r).foldl applyMirror σ.shadow }
    else none
  else none

/-- A committed live update that replaces `oldgenid` by `newgenid`, routed
through `live_sc_post_update`. -/
def dml_upd (G : LiveGlobals) (st : Int) (debug : Bool) (σ : TableState)
    (oldgenid newgenid : Nat) (updCols : List Int) : Option TableState :=
  if oldgenid ∈ σ.origin ∧ G.get_dtafile_from_genid oldgenid = st ∧ newgenid ≠ 0 ∧
      newgenid ∉ σ.origin.erase oldgenid ∧ G.get_dtafile_from_genid newgenid = st then
    let r := live_sc_post_update G (σ.iq st debug) oldgenid newgenid updCols
    if r.rc = 0 then
      some
        { σ with
          origin := newgenid :: σ.origin.erase oldgenid
          shadow := (mirrored r).foldl applyMirror σ.shadow }
    else none
  else none

/-- One step of the interleaving on stripe `st`. -/
def step (G : LiveGlobals) (st : Int) (debug : Bool) (σ : TableState) : Op → Option TableState
  | .copy upto => copier_step σ upto
  | .add g => dml_add G st debug σ g
  | .del g => dml_del G st debug σ g
  | .upd o n cols => dml_upd G st debug σ o n cols

/-- Run an interleaving from `σ`; `none` when some step is not enabled. -/
def run (G : LiveGlobals) (st : Int) (debug : Bool) : TableState → List Op → Option TableState
  | σ, [] => some σ
  | σ, op :: ops =>
    match step G st debug σ op with
    | some σ' => run G st debug σ' ops
    | none => none

/-- The state in which a migration starts: an empty shadow and the cursor at
zero. -/
def startState (origin : List Nat) : TableState where
  origin := origin
  shadow := []
  cursor := 0

/-- The invariant of the interleaving: origin genids are unique and nonzero, and
the shadow holds exactly the origin records at or before the cursor. -/
def ShadowInv (σ : TableState) : Prop :=
  σ.origin.Nodup ∧ 0 ∉ σ.origin ∧
    ∀ g, σ.shadow.count g = if g ≤ σ.cursor then σ.origin.count g else 0

/-- A sample interleaving on stripe 1 of `sampleGlobals` (genids congruent to 1
modulo 4), starting from the origin records 5 and 9. -/
def sampleOps : List Op :=
  [.copy 5, .upd 5 13 [0], .add 17, .del 9, .copy 20, .add 1, .upd 13 21 [], .copy 30]

/-! ## Orchestrator: `start_schema_change` and `finalize_schema_change` -/

/-- Status codes of `schemachange.h`, which is outside the modelled file; their
numeric values are parameters. -/
structure ScCodes where
  SC_ASYNC : Int
  SC_ASYNC_FAILED : Int
  SC_NOT_MASTER : Int
  SC_CANT_SET_RUNNING : Int

/-- The fields of `struct schema_change_type` the modelled functions read or
write. Apart from the table name they are C `int` fields; a flag is set when it
is nonzero. -/
structure schema_change_type where
  resume : Int := 0
  fulluprecs : Int := 0
  partialuprecs : Int := 0
  nothrevent : Int := 0
  type : Int := 0
  table : String := ""
  addonly : Int := 0
  alteronly : Int := 0
  fastinit : Int := 0
  headers : Int := 0
  ip_updates : Int := 0
  instant_sc : Int := 0
  dbnum : Int := 0
  header_change : Int := 0
  force_dta_rebuild : Int := 0
  force_blob_rebuild : Int := 0

/-- Collaborator calls and global accesses made by the orchestrator, in program
order. Log lines are not recorded. -/
inductive ScEvent
  | sc_errf
  | free_schema_change_type
  | set_original_master_node
  | fetch_schema_change_seed (rc : Int)
  | get_genid (v : Nat)
  | sc_set_running (running : Nat) (seed : Nat) (rc : Int)
  | read_doing_upgrade (v : Bool)
  | set_gbl_sc_abort
  | sleep (secs : Nat)
  | bdb_set_disable_plan_genid (seed : Nat) (rc : Int)
  | malloc_arg
  | set_gbl_sc_resume_start
  | do_schema_change_thd (rc : Int)
  | finalize_schema_change_thd (rc : Int)
  | pthread_create (rc : Int)
  | free_arg
  deriving DecidableEq, Repr

/-- What the environment answers to each call or global read of the
orchestrator. `doing_upgrade k` is the value the k-th read of the global
`doing_upgrade` sees (another thread may clear it between reads). -/
structure ScEnv where
  master_is_me : Bool
  little_endian : Bool
  fetch_seed_rc : Int
  fetch_seed : Nat
  genid_seed : Nat
  node_tag : Nat
  set_running_rc_first : Int
  doing_upgrade : Nat → Bool
  genid_retry : Nat
  set_running_rc_retry : Int
  master_is_me_later : Bool
  sc_seed : Nat
  disable_plan_rc : Int
  do_schema_change_thd_rc : Int
  finalize_schema_change_thd_rc : Int
  pthread_create_rc : Int
  set_running_rc_release : Int

/-- Return value and call trace of an orchestrator entry point. -/
structure ScRet where
  rc : Int
  trace : List ScEvent
  deriving DecidableEq, Repr

/-- The statement `iptr[1] = tag` on `unsigned int *iptr = &seed`: the second
32-bit word of the 64-bit seed, in memory order, is overwritten. -/
def set_word1 (little_endian : Bool) (seed tag : Nat) : Nat :=
  if little_endian then seed % 2 ^ 32 + 2 ^ 32 * (tag % 2 ^ 32)
  else seed / 2 ^ 32 % 2 ^ 32 * 2 ^ 32 + tag % 2 ^ 32

/-- The seed of step 2 of `start_schema_change` (schemachange.c:41-56), once the
fetch has succeeded on the resume path. `node_tag` is
`htonl(crc32c(gbl_mynode, strlen(gbl_mynode)))`. -/
def acquired_seed (E : ScEnv) (s : schema_change_type) : Nat :=
  if s.resume ≠ 0 then E.fetch_seed else set_word1 E.little_endian E.genid_seed E.node_tag

/-- The cancellation wait `while (maxcancelretry-- > 0) { sleep(1); if
(!doing_upgrade) break; }` (schemachange.c:72-76). The first argument is the
remaining `maxcancelretry`, the second the index of the next read of
`doing_upgrade`; the result is the trace and the index of the next read. -/
def cancel_wait (doing_upgrade : Nat → Bool) : Nat → Nat → List ScEvent × Nat
  | 0, n => ([], n)
  | m + 1, n =>
    if !doing_upgrade n then
      ([.sleep 1, .read_doing_upgrade (doing_upgrade n)], n + 1)
    else
      let r := cancel_wait doing_upgrade m (n + 1)
      (.sleep 1 :: .read_doing_upgrade (doing_upgrade n) :: r.1, r.2)

/-- The tail of `start_schema_change` after the running slot is claimed
(schemachange.c:90-133): plan marker, argument block, resume stamp, dispatch. -/
def dispatch_schema_change (K : ScCodes) (E : ScEnv) (s : schema_change_type)
    (pre : List ScEvent) : ScRet :=
  let t_plan :=
    if E.master_is_me_later ∧ s.resume = 0 then
      [ScEvent.bdb_set_disable_plan_genid E.sc_seed E.disable_plan_rc]
    else []
  let t_resume := if s.resume ≠ 0 then [ScEvent.set_gbl_sc_resume_start] else []
  let t := pre ++ t_plan ++ [.malloc_arg] ++ t_resume
  if s.nothrevent ≠ 0 then
    ⟨E.do_schema_change_thd_rc, t ++ [.do_schema_change_thd E.do_schema_change_thd_rc]⟩
  else if E.pthread_create_rc ≠ 0 then
    ⟨K.SC_ASYNC_FAILED,
      t ++ [.pthread_create E.pthread_create_rc, .free_arg, .free_schema_change_type,
        .sc_set_running 0 E.sc_seed E.set_running_rc_release]⟩
  else
    ⟨K.SC_ASYNC, t ++ [.pthread_create 0]⟩

/-- Embedding of `start_schema_change` (schemachange.c:22-134). The retry claim
of line 82 is made with a fresh `get_genid` value, as in the source, not with
the local `seed`. -/
def start_schema_change (K : ScCodes) (E : ScEnv) (s : schema_change_type) : ScRet :=
  if !E.master_is_me then
    ⟨K.SC_NOT_MASTER, [.sc_errf, .free_schema_change_type]⟩
  else
    let t0 := [ScEvent.set_original_master_node]
    if s.resume ≠ 0 ∧ E.fetch_seed_rc ≠ 0 then
      ⟨E.fetch_seed_rc,
        t0 ++ [.fetch_schema_change_seed E.fetch_seed_rc, .free_schema_change_type]⟩
    else
      let seed := acquired_seed E s
      let t1 := t0 ++
        (if s.resume ≠ 0 then [ScEvent.fetch_schema_change_seed E.fetch_seed_rc]
         else [ScEvent.get_genid E.genid_seed])
      let rc := E.set_running_rc_first
      let t2 := t1 ++ [.sc_set_running 1 seed rc]
      if rc ≠ 0 then
        let t3 := t2 ++ [.read_doing_upgrade (E.doing_upgrade 0)]
        if !E.doing_upgrade 0 ∨ s.fulluprecs ≠ 0 ∨ s.partialuprecs ≠ 0 then
          ⟨K.SC_CANT_SET_RUNNING, t3 ++ [.free_schema_change_type]⟩
        else
          let w := cancel_wait E.doing_upgrade 10 1
          let t4 := t3 ++ [.set_gbl_sc_abort] ++ w.1 ++ [.read_doing_upgrade (E.doing_upgrade w.2)]
          if E.doing_upgrade w.2 then
            ⟨K.SC_CANT_SET_RUNNING, t4 ++ [.sc_errf, .free_schema_change_type]⟩
          else
            let t5 := t4 ++ [.get_genid E.genid_retry,
              .sc_set_running 1 E.genid_retry E.set_running_rc_retry]
            if E.set_running_rc_retry ≠ 0 then
              ⟨K.SC_CANT_SET_RUNNING, t5 ++ [.free_schema_change_type]⟩
            else
              dispatch_schema_change K E s t5
      else
        dispatch_schema_change K E s t2

/-- Embedding of `finalize_schema_change` (schemachange.c:154-178). -/
def finalize_schema_change (K : ScCodes) (E : ScEnv) (s : schema_change_type) : ScRet :=
  if s.nothrevent ≠ 0 then
    ⟨E.finalize_schema_change_thd_rc,
      [.finalize_schema_change_thd E.finalize_schema_change_thd_rc]⟩
  else if E.pthread_create_rc ≠ 0 then
    ⟨K.SC_ASYNC_FAILED,
      [.pthread_create E.pthread_create_rc, .free_schema_change_type,
        .sc_set_running 0 E.sc_seed E.set_running_rc_release]⟩
  else
    ⟨K.SC_ASYNC, [.pthread_create 0]⟩

/-- Whether an event hands the request to the migration body, inline or on a
worker thread. -/
def ScEvent.isDispatch : ScEvent → Bool
  | .do_schema_change_thd _ => true
  | .pthread_create _ => true
  | _ => false

/-- Whether an event is a call `sc_set_running(1, ...)`, a claim attempt. -/
def ScEvent.isClaim : ScEvent → Bool
  | .sc_set_running 1 _ _ => true
  | _ => false

/-- Whether an event is a call `sc_set_running(0, ...)`, a release. -/
def ScEvent.isRelease : ScEvent → Bool
  | .sc_set_running 0 _ _ => true
  | _ => false

/-- Whether an event is a successful claim, and the seed it was made with. -/
def ScEvent.claimedSeed : ScEvent → Option Nat
  | .sc_set_running 1 seed 0 => some seed
  | _ => none

/-- The trace of `k` polls of the cancellation wait, the first of which makes
read number `n` of `doing_upgrade`: each poll sleeps one second and then reads
the flag. -/
def pollTrace (doing_upgrade : Nat → Bool) : Nat → Nat → List ScEvent
  | _, 0 => []
  | n, k + 1 =>
    .sleep 1 :: .read_doing_upgrade (doing_upgrade n) :: pollTrace doing_upgrade (n + 1) k

/-- The trace of `start_schema_change` on the master up to the point where the
first claim of the running slot has failed and `doing_upgrade` has been read
(schemachange.c:40-60). -/
def claimFailTrace (E : ScEnv) (s : schema_change_type) : List ScEvent :=
  [ScEvent.set_original_master_node] ++
    (if s.resume ≠ 0 then [ScEvent.fetch_schema_change_seed E.fetch_seed_rc]
     else [ScEvent.get_genid E.genid_seed]) ++
    [.sc_set_running 1 (acquired_seed E s) E.set_running_rc_first,
      .read_doing_upgrade (E.doing_upgrade 0)]

/-- The trace of the preemption path through the end of the cancellation wait
when the wait made `k` polls: the abort signal, the polls (reads 1 to k of
`doing_upgrade`) and the check after the loop (read k + 1). -/
def preemptTrace (E : ScEnv) (s : schema_change_type) (k : Nat) : List ScEvent :=
  claimFailTrace E s ++ [.set_gbl_sc_abort] ++ pollTrace E.doing_upgrade 1 k ++
    [.read_doing_upgrade (E.doing_upgrade (k + 1))]

/-- Monitor for "the migration body is dispatched only after a claim succeeded":
scans a trace from left to right, remembering whether a successful claim has
been seen, and fails at a dispatch event that no successful claim precedes. -/
def claimedBeforeDispatch : Bool → List ScEvent → Bool
  | _, [] => true
  | claimed, e :: es =>
    (!e.isDispatch || claimed) &&
      claimedBeforeDispatch (claimed || e.claimedSeed.isSome) es

/-- Sample status codes: four distinct values. -/
def sampleCodes : ScCodes where
  SC_ASYNC := 6
  SC_ASYNC_FAILED := 7
  SC_NOT_MASTER := 8
  SC_CANT_SET_RUNNING := -99

/-- A sample environment: this node is master, a maintenance upgrade holds the
running slot (the first claim fails) and stops at the third poll after the abort
signal; the retry claim succeeds and the worker starts. -/
def sampleEnv : ScEnv where
  master_is_me := true
  little_endian := true
  fetch_seed_rc := 0
  fetch_seed := 0x1234567800000042
  genid_seed := 0x0000000a00000001
  node_tag := 0xdeadbeef
  set_running_rc_first := -1
  doing_upgrade := fun k => decide (k < 3)
  genid_retry := 0x0000000a00000002
  set_running_rc_retry := 0
  master_is_me_later := true
  sc_seed := 0x0000000a00000002
  disable_plan_rc := 0
  do_schema_change_thd_rc := 0
  finalize_schema_change_thd_rc := 0
  pthread_create_rc := 0
  set_running_rc_release := 0

/-- The sample environment with the running slot free: the first claim
succeeds. -/
def freeSlotEnv : ScEnv :=
  { sampleEnv with set_running_rc_first := 0, sc_seed := 0xdeadbeef00000001 }

/-- The sample environment when the worker thread cannot be started:
`pthread_create` returns 11. -/
def noThreadEnv : ScEnv :=
  { sampleEnv with pthread_create_rc := 11 }

/-- The sample environment on a node that is not the master. -/
def replicantEnv : ScEnv :=
  { sampleEnv with master_is_me := false }

/-! ## Recovery bootstrap, dry run, partition exchange and time-partition drop -/

/-- Collaborator calls, output writes and process-level actions made by
`add_table_for_recovery`, `add_schema_change_tables`, `dryrun`,
`handle_partition` and `sc_timepart_drop_table`, in program order. -/
inductive Call
  | getdbbyname (found : Bool)
  | wrlock_schema_lk
  | unlock_schema_lk
  | do_add_table_int (rc : Int)
  | logmsg_fatal
  | logmsg_error
  | abort
  | dyns_load_schema_string (rc : Int)
  | csc2_get_errors
  | sc_errf (text : String)
  | getdbidxbyname (idx : Int)
  | newdb_from_schema (dbnum foundix : Int) (ok : Bool)
  | get_csc2_version
  | add_cmacc_stmt (rc : Int)
  | backout_schemas
  | verify_constraints_exist (rc : Int)
  | bdb_get_new_prefix_buf
  | open_temp_db_resume (rc : Int)
  | set_schemachange_options
  | set_sc_flgs
  | dryrun_int (rc : Int)
  | freedb
  | sbuf2printf (text : String)
  | sbuf2flush
  | sbuf2gets (rc : Int)
  | realloc (size : Nat) (ok : Bool)
  | bdb_get_in_schema_change (dbname : String) (rc bdberr : Int)
  | malloc_schema_change_type (ok : Bool)
  | unpack_schema_change_type (rc : Int)
  | access_abort_marker (present : Bool)
  | bdb_set_in_schema_change_null (dbname : String) (rc : Int)
  | free_abort_filename
  | free_packed_sc_data
  | free_s
  | add_table_for_recovery
  | views_do_partition (name : String) (cmd : Option String) (rc : Int)
  | bdb_llog_views (rc : Int)
  | bdb_readlock
  | bdb_rellock
  | sc_set_running (running : Nat) (rc : Int)
  | get_csc2_file (rc : Int)
  | cleanup_strptr
  | malloc_arg
  | do_schema_change_thd (rc : Int)
  | free_schema_change_type
  deriving DecidableEq, Repr

/-- How a call ends: it returns a status to its caller, or the process is
terminated by `abort()`. -/
inductive Outcome
  | returned (rc : Int)
  | aborted
  deriving DecidableEq, Repr

/-- What the schema and storage collaborators of `add_table_for_recovery` and
`dryrun` answer. `getdbbyname` is the catalog lookup of the request's table;
`set_schemachange_options` and `set_sc_flgs` update the request in place. -/
structure SchemaEnv where
  getdbbyname : Option db
  do_add_table_int_rc : Int
  dyns_load_schema_string_rc : Int
  csc2_get_errors : String
  getdbidxbyname : Int
  newdb_from_schema_ok : Bool
  gbl_dtastripe : Int
  get_csc2_version : Int
  add_cmacc_stmt_rc : Int
  verify_constraints_exist_rc : Int
  open_temp_db_resume_rc : Int
  set_schemachange_options : schema_change_type → schema_change_type
  set_sc_flgs : schema_change_type → schema_change_type
  dryrun_int_rc : Int

/-- Result of `add_table_for_recovery`: how it ended, its call trace, the
request as it left it, and the shadow table object `db->sc_to` once
`newdb_from_schema` has built it. -/
structure RecRet where
  outcome : Outcome
  trace : List Call
  s : schema_change_type
  newdb : Option db

/-- The truth value of the C expression `a && b` on `int` operands. -/
def c_and (a b : Int) : Int :=
  if a ≠ 0 ∧ b ≠ 0 then 1 else 0

/-- Lines 571-573 of `add_table_for_recovery`: when the request's `headers`
differs from the table's `odh`, the request is marked as a header change that
forces the data and blob files to be rebuilt. -/
def mark_header_change (s : schema_change_type) (odh : Int) : schema_change_type :=
  if s.headers ≠ odh then
    { s with header_change := 1, force_dta_rebuild := 1, force_blob_rebuild := 1 }
  else s

/-- Lines 598-603 of `add_table_for_recovery`: the fields set on the shadow table
object that `newdb_from_schema` returned. -/
def shadow_settings (E : SchemaEnv) (s : schema_change_type) (dbnum : Int) : db :=
  { dbnum := dbnum
    dtastripe := E.gbl_dtastripe
    odh := s.headers
    inplace_updates := c_and s.headers s.ip_updates
    instant_schema_change := c_and s.headers s.instant_sc
    version := E.get_csc2_version }

/-- Embedding of `add_table_for_recovery` (schemachange.c:540-624). -/
def add_table_for_recovery (E : SchemaEnv) (s : schema_change_type) : RecRet :=
  match E.getdbbyname with
  | none =>
    ⟨.returned E.do_add_table_int_rc,
      [.getdbbyname false, .wrlock_schema_lk, .do_add_table_int E.do_add_table_int_rc,
        .unlock_schema_lk], s, none⟩
  | some db =>
    let t0 := [Call.getdbbyname true]
    if s.addonly ≠ 0 then
      ⟨.aborted, t0 ++ [.logmsg_fatal, .abort], s, none⟩
    else
      let s1 := mark_header_change s db.odh
      let t1 := t0 ++ [.dyns_load_schema_string E.dyns_load_schema_string_rc]
      if E.dyns_load_schema_string_rc ≠ 0 then
        ⟨.aborted, t1 ++ [.csc2_get_errors, .sc_errf E.csc2_get_errors, .logmsg_fatal, .abort],
          s1, none⟩
      else
        let foundix := E.getdbidxbyname
        let t2 := t1 ++ [.getdbidxbyname foundix]
        if foundix < 0 then
          ⟨.aborted, t2 ++ [.logmsg_fatal, .abort], s1, none⟩
        else
          let dbnum := if s1.dbnum ≠ -1 then s1.dbnum else db.dbnum
          let t3 := t2 ++ [.newdb_from_schema dbnum foundix E.newdb_from_schema_ok]
          if !E.newdb_from_schema_ok then
            ⟨.returned (-1), t3, s1, none⟩
          else
            let newdb := shadow_settings E s1 dbnum
            let t4 := t3 ++ [.get_csc2_version, .add_cmacc_stmt E.add_cmacc_stmt_rc]
            if E.add_cmacc_stmt_rc ≠ 0 then
              ⟨.aborted, t4 ++ [.backout_schemas, .abort], s1, some newdb⟩
            else
              let t5 := t4 ++ [.verify_constraints_exist E.verify_constraints_exist_rc]
              if E.verify_constraints_exist_rc ≠ 0 then
                ⟨.aborted, t5 ++ [.backout_schemas, .abort], s1, some newdb⟩
              else
                let t6 := t5 ++ [.bdb_get_new_prefix_buf,
                  .open_temp_db_resume E.open_temp_db_resume_rc]
                if E.open_temp_db_resume_rc ≠ 0 then
                  ⟨.aborted, t6 ++ [.backout_schemas, .abort], s1, some newdb⟩
                else
                  ⟨.returned 0, t6, s1, some newdb⟩

/-- A sample collaborator environment: the table exists with on-disk headers,
and every step of recovery and of the dry run succeeds. -/
def sampleSchemaEnv : SchemaEnv where
  getdbbyname := some { odh := 1, dbnum := 7 }
  do_add_table_int_rc := 0
  dyns_load_schema_string_rc := 0
  csc2_get_errors := ""
  getdbidxbyname := 3
  newdb_from_schema_ok := true
  gbl_dtastripe := 4
  get_csc2_version := 2
  add_cmacc_stmt_rc := 0
  verify_constraints_exist_rc := 0
  open_temp_db_resume_rc := 0
  set_schemachange_options := fun s => s
  set_sc_flgs := fun s => s
  dryrun_int_rc := 0

/-- What the metadata store answers for one table of `thedb->dbs`: the return
value and `bdberr` of `bdb_get_in_schema_change`, whether it handed back packed
request data, and what `unpack_schema_change_type` makes of that data. -/
structure TableMeta where
  dbname : String
  get_in_schema_change_rc : Int := 0
  bdberr : Int := 0
  has_packed_sc_data : Bool := false
  unpack_rc : Int := 0
  unpacked : schema_change_type := {}

/-- The environment of `add_schema_change_tables`. `BDBERR_NOERROR` and
`DBTYPE_TAGGED_TABLE` are constants of headers outside the modelled file;
`abort_marker_present` is `access(abort_filename, F_OK) == 0`. -/
structure ResumeEnv where
  gbl_schema_change_in_progress : Bool
  dbs : List TableMeta
  BDBERR_NOERROR : Int
  DBTYPE_TAGGED_TABLE : Int
  malloc_ok : Bool
  abort_marker_present : Bool
  bdb_set_in_schema_change_rc : Int
  schema : SchemaEnv

/-- Result of `add_schema_change_tables`. -/
structure ResumeRet where
  outcome : Outcome
  trace : List Call
  deriving DecidableEq, Repr

/-- The body of the loop of `add_schema_change_tables` for a table that is in
the middle of a schema change (schemachange.c:656-710). On the abort path the
request `s` is not freed, as in the source. -/
def resume_table (E : ResumeEnv) (t : TableMeta) : ResumeRet :=
  if !E.malloc_ok then
    ⟨.returned (-1), [.malloc_schema_change_type false, .logmsg_error, .free_packed_sc_data]⟩
  else if t.unpack_rc ≠ 0 then
    ⟨.returned (-1),
      [.malloc_schema_change_type true, .unpack_schema_change_type t.unpack_rc,
        .sc_errf ("could not unpack the schema change data retrieved " ++
          "from the low level meta table\n"),
        .free_packed_sc_data, .free_s]⟩
  else
    let s := t.unpacked
    let t0 := [Call.malloc_schema_change_type true, .unpack_schema_change_type t.unpack_rc,
      .access_abort_marker E.abort_marker_present]
    let scabort : Bool := E.abort_marker_present && decide (E.bdb_set_in_schema_change_rc = 0)
    let t1 := t0 ++
      (if E.abort_marker_present then
        [Call.bdb_set_in_schema_change_null t.dbname E.bdb_set_in_schema_change_rc] ++
          (if E.bdb_set_in_schema_change_rc ≠ 0 then [Call.logmsg_error] else [])
       else []) ++
      [.free_abort_filename, .free_packed_sc_data]
    if scabort then
      ⟨.returned 0, t1⟩
    else if s.fastinit ≠ 0 ∨ s.type ≠ E.DBTYPE_TAGGED_TABLE then
      ⟨.returned 0, t1 ++ [.free_s]⟩
    else
      let r := add_table_for_recovery E.schema s
      match r.outcome with
      | .returned rc => ⟨.returned rc, t1 ++ [.add_table_for_recovery] ++ r.trace ++ [.free_s]⟩
      | .aborted => ⟨.aborted, t1 ++ [.add_table_for_recovery] ++ r.trace⟩

/-- The loop of `add_schema_change_tables` over `thedb->dbs`
(schemachange.c:641-711): a table whose marker cannot be read is logged and
skipped, a table without packed data is skipped, and the first table with packed
data ends the call. -/
def resume_scan (E : ResumeEnv) : List TableMeta → ResumeRet
  | [] => ⟨.returned 0, []⟩
  | t :: rest =>
    let ev := Call.bdb_get_in_schema_change t.dbname t.get_in_schema_change_rc t.bdberr
    if t.get_in_schema_change_rc ≠ 0 ∨ t.bdberr ≠ E.BDBERR_NOERROR then
      ⟨(resume_scan E rest).outcome, ev :: .logmsg_error :: (resume_scan E rest).trace⟩
    else if t.has_packed_sc_data then
      ⟨(resume_table E t).outcome, ev :: (resume_table E t).trace⟩
    else
      ⟨(resume_scan E rest).outcome, ev :: (resume_scan E rest).trace⟩

/-- Embedding of `add_schema_change_tables` (schemachange.c:626-714). -/
def add_schema_change_tables (E : ResumeEnv) : ResumeRet :=
  if E.gbl_schema_change_in_progress then ⟨.returned 0, []⟩
  else resume_scan E E.dbs

/-- Whether the loop skips a table: its marker cannot be read, or it has no
packed request data. -/
def TableMeta.skipped (E : ResumeEnv) (t : TableMeta) : Prop :=
  (t.get_in_schema_change_rc ≠ 0 ∨ t.bdberr ≠ E.BDBERR_NOERROR) ∨ t.has_packed_sc_data = false

/-- Whether an event belongs to shadow reconstruction: the call of
`add_table_for_recovery` or one of the steps that build or open a table. -/
def Call.isReconstruction : Call → Bool
  | .add_table_for_recovery => true
  | .do_add_table_int _ => true
  | .newdb_from_schema _ _ _ => true
  | .add_cmacc_stmt _ => true
  | .open_temp_db_resume _ => true
  | _ => false

/-- The table `t1` of the sample startup, with its persisted request. -/
def sampleTable : TableMeta :=
  { dbname := "t1", has_packed_sc_data := true,
    unpacked := { table := "t1", type := 1, headers := 1, dbnum := -1 } }

/-- A sample startup: table `t0` is not in a schema change, table `t1` has a
persisted table-DDL request that unpacks, the operator abort marker is present
and clearing the persisted marker succeeds. -/
def sampleResumeEnv : ResumeEnv where
  gbl_schema_change_in_progress := false
  dbs := [{ dbname := "t0" }, sampleTable]
  BDBERR_NOERROR := 0
  DBTYPE_TAGGED_TABLE := 1
  malloc_ok := true
  abort_marker_present := true
  bdb_set_in_schema_change_rc := 0
  schema := sampleSchemaEnv

/-- The sample startup when clearing the persisted marker fails with 5. -/
def clearFailsEnv : ResumeEnv :=
  { sampleResumeEnv with bdb_set_in_schema_change_rc := 5 }

/-- Return value and call trace of `dryrun`. -/
structure DryRet where
  rc : Int
  trace : List Call
  deriving DecidableEq, Repr

/-- The labels `succeed`, `fail` and `done` of `dryrun` (schemachange.c:336-354):
the terminal marker is written according to `rc`, then the candidate table, if
one was built, has its schemas backed out and is freed. -/
def dryrun_done (rc : Int) (newdb : Option db) (pre : List Call) : DryRet :=
  ⟨rc,
    pre ++ [.sbuf2printf (if rc = 0 then "SUCCESS\n" else "FAILED\n")] ++
      (if newdb.isSome then [.backout_schemas, .freedb] else [])⟩

/-- The part of `dryrun` after the existence checks (schemachange.c:305-334). -/
def dryrun_candidate (E : SchemaEnv) (s : schema_change_type) (pre : List Call) : DryRet :=
  let t1 := pre ++ [.dyns_load_schema_string E.dyns_load_schema_string_rc]
  if E.dyns_load_schema_string_rc ≠ 0 then
    dryrun_done (-1) none (t1 ++ [.csc2_get_errors, .sc_errf E.csc2_get_errors])
  else if E.getdbbyname.isNone then
    dryrun_done 0 none (t1 ++ [.sbuf2printf (">Table " ++ s.table ++ " will be added.\n")])
  else
    let t2 := t1 ++ [.newdb_from_schema 0 0 E.newdb_from_schema_ok]
    if !E.newdb_from_schema_ok then
      dryrun_done (-1) none t2
    else
      let s1 := E.set_sc_flgs (E.set_schemachange_options s)
      let newdb : db :=
        { odh := s1.headers, instant_schema_change := c_and s1.headers s1.instant_sc }
      let t3 := t2 ++ [.set_schemachange_options, .set_sc_flgs,
        .add_cmacc_stmt E.add_cmacc_stmt_rc]
      if E.add_cmacc_stmt_rc ≠ 0 then
        dryrun_done (-1) (some newdb) t3
      else if E.dryrun_int_rc ≠ 0 then
        dryrun_done (-1) (some newdb) (t3 ++ [.dryrun_int E.dryrun_int_rc])
      else
        dryrun_done 0 (some newdb) (t3 ++ [.dryrun_int E.dryrun_int_rc])

/-- Embedding of `dryrun` (schemachange.c:279-355). -/
def dryrun (E : SchemaEnv) (s : schema_change_type) : DryRet :=
  match E.getdbbyname with
  | none =>
    let t0 := [Call.getdbbyname false]
    if s.alteronly ≠ 0 then
      dryrun_done (-1) none (t0 ++ [.sbuf2printf (">Table " ++ s.table ++ " does not exists\n")])
    else if s.fastinit ≠ 0 then
      dryrun_done (-1) none (t0 ++ [.sbuf2printf (">Table " ++ s.table ++ " does not exists\n")])
    else dryrun_candidate E s t0
  | some _ =>
    let t0 := [Call.getdbbyname true]
    if s.addonly ≠ 0 then
      dryrun_done (-1) none (t0 ++ [.sbuf2printf (">Table " ++ s.table ++ " already exists\n")])
    else if s.fastinit ≠ 0 then
      dryrun_done 0 none (t0 ++ [.sbuf2printf (">Table " ++ s.table ++ " will be truncated\n")])
    else dryrun_candidate E s t0

/-- Whether an event writes to the request's output channel `s->sb`: a
`sbuf2printf`, a `sc_errf`, or whatever `dryrun_int` reports. -/
def Call.isWrite : Call → Bool
  | .sbuf2printf _ => true
  | .sc_errf _ => true
  | .dryrun_int _ => true
  | _ => false

/-- The texts a call wrote with `sbuf2printf`, in order. -/
def printed (trace : List Call) : List String :=
  trace.filterMap fun e =>
    match e with
    | .sbuf2printf text => some text
    | _ => none

/-- The terminal marker that goes with a return value of `dryrun`. -/
def marker (rc : Int) : String :=
  if rc = 0 then "SUCCESS\n" else "FAILED\n"

/-- The report shape of `dryrun` in the words of the specification: what is
written to the output channel is exactly one outcome line (any write that is not
a terminal marker) followed by the terminal marker of the return value. -/
def dryrun_report_as_specified (E : SchemaEnv) (s : schema_change_type) : Prop :=
  ∃ w : Call, w.isWrite = true ∧ w ≠ .sbuf2printf "SUCCESS\n" ∧ w ≠ .sbuf2printf "FAILED\n" ∧
    (dryrun E s).trace.filter Call.isWrite = [w, .sbuf2printf (marker (dryrun E s).rc)]

/-- The sample collaborators when the candidate table object cannot be built:
`newdb_from_schema` returns NULL. -/
def noCandidateEnv : SchemaEnv :=
  { sampleSchemaEnv with newdb_from_schema_ok := false }

/-- Mirror of `struct errstat`: an error value and an error string. -/
structure errstat where
  errval : Int := 0
  errstr : String := ""
  deriving DecidableEq, Repr

/-- The environment of `handle_partition`: `input` lists what successive calls
of `sbuf2gets` return (return value and line; once exhausted the call returns
-1), `realloc_ok` says whether growing the command buffer to a size succeeds,
`views_do_partition` gives the status and the error record the operation leaves
for a target name and command. -/
structure PartEnv where
  input : List (Int × String)
  realloc_ok : Nat → Bool
  views_do_partition : String → Option String → Int × errstat
  bdb_llog_views_rc : Int

/-- Drop one trailing newline, as the C code does by overwriting it with a NUL. -/
def strip_newline (line : String) : String :=
  if line.data.getLast? = some '\n' then String.mk line.data.dropLast else line

/-- How reading the command lines ends: the buffer could not be grown, or the
lines were read (up to the terminating line, or to the end of input). -/
inductive CmdRead
  | out_of_memory (trace : List Call)
  | done (cmd : Option String) (trace : List Call)
  deriving DecidableEq, Repr

/-- The loop that reads the command of `handle_partition`
(schemachange.c:994-1026). `cmd` is the text gathered so far (NULL before the
first line), `used` and `alloc` are the C counters, in bytes. -/
def read_cmd (realloc_ok : Nat → Bool) :
    List (Int × String) → Option String → Nat → Nat → List Call → CmdRead
  | [], cmd, _, _, tr => .done cmd (tr ++ [.sbuf2gets (-1)])
  | (rc, line) :: rest, cmd, used, alloc, tr =>
    let tr1 := tr ++ [.sbuf2gets rc]
    if rc ≤ 0 then .done cmd tr1
    else if line = ".\n" then
      .done (cmd.map fun c => if used > 0 then strip_newline c else c) tr1
    else
      let len := line.utf8ByteSize + 1
      if alloc - used < len then
        let alloc1 := if len < 512 then alloc + 512 else alloc + len
        if !realloc_ok alloc1 then
          .out_of_memory (tr1 ++ [.realloc alloc1 false, .logmsg_error,
            .sbuf2printf "!out of memory reading schema\n", .sbuf2printf "FAILED\n"])
        else
          read_cmd realloc_ok rest (some (cmd.getD "" ++ line)) (used + (len - 1)) alloc1
            (tr1 ++ [.realloc alloc1 true])
      else
        read_cmd realloc_ok rest (some (cmd.getD "" ++ line)) (used + (len - 1)) alloc tr1

/-- Result of `do_partition`: its status, the error record and its calls. -/
structure PartRet where
  rc : Int
  xerr : errstat
  trace : List Call
  deriving DecidableEq, Repr

/-- Embedding of `do_partition` (schemachange.c:918-970); the transaction
handling is commented out in the source. -/
def do_partition (E : PartEnv) (name : String) (cmd : Option String) : PartRet :=
  let r := E.views_do_partition name cmd
  let t0 := [Call.views_do_partition name cmd r.1]
  if r.1 = 0 then
    ⟨r.1, r.2, t0 ++ [.bdb_llog_views E.bdb_llog_views_rc] ++
      (if E.bdb_llog_views_rc ≠ 0 then [Call.logmsg_error] else [])⟩
  else ⟨r.1, r.2, t0⟩

/-- The reply `handle_partition` writes after the operation
(schemachange.c:1033-1037): the `%d` conversion prints the error value in
decimal, the `%s` conversion the error string. -/
def partition_reply (rc : Int) (xerr : errstat) : String :=
  if rc = 0 then "SUCCESS\n"
  else "FAILED rc " ++ toString xerr.errval ++ " err \"" ++ xerr.errstr ++ "\"\n"

/-- The failure reply in the words of the specification. -/
def partition_reply_as_specified (rc : Int) (xerr : errstat) : String :=
  if rc = 0 then "SUCCESS\n"
  else "FAILED rc=" ++ toString xerr.errval ++ " err=\"" ++ xerr.errstr ++ "\"\n"

/-- Embedding of `handle_partition` (schemachange.c:972-1040); a `void`
function, so the result is its call trace. -/
def handle_partition (E : PartEnv) : List Call :=
  match E.input with
  | [] => [.sbuf2gets (-1), .logmsg_error]
  | (rc, line) :: rest =>
    if rc < 0 then [.sbuf2gets rc, .logmsg_error]
    else
      let viewname := strip_newline line
      match read_cmd E.realloc_ok rest none 0 0 [.sbuf2gets rc] with
      | .out_of_memory tr => tr
      | .done cmd tr =>
        let r := do_partition E viewname cmd
        tr ++ [.wrlock_schema_lk] ++ r.trace ++ [.unlock_schema_lk] ++
          [.sbuf2printf (partition_reply r.rc r.xerr), .sbuf2flush]

/-- Whether an event takes or drops a lock. -/
def Call.isLock : Call → Bool
  | .wrlock_schema_lk => true
  | .unlock_schema_lk => true
  | _ => false

/-- A sample exchange: target `tv1`, one command line, the terminating line; the
operation fails with status -1, error value 5 and error string `bad`. -/
def samplePartEnv : PartEnv where
  input := [(4, "tv1\n"), (12, "CREATE TIME\n"), (2, ".\n")]
  realloc_ok := fun _ => true
  views_do_partition := fun _ _ => (-1, { errval := 5, errstr := "bad" })
  bdb_llog_views_rc := 0

/-- The sample exchange when the operation succeeds. -/
def okPartEnv : PartEnv :=
  { samplePartEnv with views_do_partition := fun _ _ => (0, {}) }

/-- Error codes of the time-partition interface, constants of a header outside
the modelled file. -/
structure ViewCodes where
  SC_VIEW_NOERR : Int
  SC_VIEW_ERR_BUG : Int
  SC_VIEW_ERR_EXIST : Int
  SC_VIEW_ERR_SC : Int

/-- What the environment answers to the calls of `sc_timepart_drop_table`. -/
structure TimepartEnv where
  getdbbyname : Option String
  master_is_me : Bool
  master : String
  set_running_claim_rc : Int
  get_csc2_file_rc : Int
  do_schema_change_thd_rc : Int
  set_running_release_rc : Int

/-- Result of `sc_timepart_drop_table`: the returned value, the caller's
`errstat` as the call leaves it, and the call trace. -/
structure TimepartRet where
  rc : Int
  xerr : errstat
  trace : List Call
  deriving DecidableEq, Repr

/-- The labels `error` and `error_prelock` of `sc_timepart_drop_table`
(schemachange.c:907-914): drop the read lock if it was taken, free the request,
return `xerr->errval`. -/
def timepart_exit (locked : Bool) (xerr : errstat) (pre : List Call) : TimepartRet :=
  ⟨xerr.errval, xerr,
    pre ++ (if locked then [Call.bdb_rellock] else []) ++ [.free_schema_change_type]⟩

/-- Embedding of `sc_timepart_drop_table` (schemachange.c:819-915). The request
built on the stack is handed to `do_schema_change_thd` and is not part of the
trace; `snprintf` truncation of the error string is not modelled. In the failure
branch of line 896 the assignment of `SC_VIEW_ERR_SC` is the body of the
brace-less `if` on the release, as the source is written. -/
def sc_timepart_drop_table (V : ViewCodes) (E : TimepartEnv) (tableName : String)
    (xerr : errstat) : TimepartRet :=
  match E.getdbbyname with
  | none =>
    timepart_exit false
      { errval := V.SC_VIEW_ERR_BUG, errstr := "table '" ++ tableName ++ "' not found\n" }
      [.getdbbyname false]
  | some dbname =>
    let t0 := [Call.getdbbyname true, .bdb_readlock]
    if !E.master_is_me then
      timepart_exit true
        { errval := V.SC_VIEW_ERR_EXIST,
          errstr := "I am not master; master is " ++ E.master ++ "\n" } t0
    else
      let t1 := t0 ++ [.sc_set_running 1 E.set_running_claim_rc]
      if E.set_running_claim_rc ≠ 0 then
        timepart_exit true
          { errval := V.SC_VIEW_ERR_EXIST, errstr := "schema change running" } t1
      else
        let t2 := t1 ++ [.get_csc2_file E.get_csc2_file_rc]
        if E.get_csc2_file_rc ≠ 0 then
          timepart_exit true
            { errval := V.SC_VIEW_ERR_BUG,
              errstr := "sc_timepart_drop_table: could not get schema for table: " ++
                dbname ++ "\n" }
            (t2 ++ [.cleanup_strptr])
        else
          let rc := E.do_schema_change_thd_rc
          let t3 := t2 ++ [.malloc_arg, .do_schema_change_thd rc]
          if rc ≠ 0 then
            let t4 := t3 ++ [.sc_set_running 0 E.set_running_release_rc]
            let errval :=
              if E.set_running_release_rc ≠ 0 then V.SC_VIEW_ERR_SC else xerr.errval
            timepart_exit true { errval := errval, errstr := "failed to drop table" } t4
          else
            timepart_exit true { xerr with errval := V.SC_VIEW_NOERR } t3

/-- Sample time-partition codes: four distinct values, success being 0. -/
def sampleViewCodes : ViewCodes where
  SC_VIEW_NOERR := 0
  SC_VIEW_ERR_BUG := -6
  SC_VIEW_ERR_EXIST := -3
  SC_VIEW_ERR_SC := -7

/-- A sample drop on the master: the table exists, the running slot is claimed,
the schema is fetched, the drop body fails with 1 and the release of the running
slot succeeds. -/
def dropFailsEnv : TimepartEnv where
  getdbbyname := some "tv1_part0"
  master_is_me := true
  master := "node1"
  set_running_claim_rc := 0
  get_csc2_file_rc := 0
  do_schema_change_thd_rc := 1
  set_running_release_rc := 0

/-- A configuration whose stripe locator answers 9 although there are only four
stripes. -/
def strayGlobals : LiveGlobals :=
  { statusGlobals with gbl_dtastripe := 4, get_dtafile_from_genid := fun _ => 9 }

/-- A resumed table-DDL request on table `t1` without on-disk headers that asks
for in-place updates and instant schema change. -/
def noHeadersReq : schema_change_type :=
  { table := "t1", type := 1, headers := 0, ip_updates := 1, instant_sc := 1, dbnum := -1 }

/-- A resumed table-DDL request on table `t1` with on-disk headers that asks for
in-place updates and not for instant schema change. -/
def headersReq : schema_change_type :=
  { table := "t1", type := 1, headers := 1, ip_updates := 1, instant_sc := 0, dbnum := -1 }

/-- Flag preservation in the words of the specification: the shadow's header
setting is the request's, and each of the two flags is set exactly when the
request's flag is set. -/
def flags_preserved_as_specified (E : SchemaEnv) (s : schema_change_type) : Prop :=
  ∀ nd, (add_table_for_recovery E s).newdb = some nd →
    nd.odh = s.headers ∧ (nd.inplace_updates ≠ 0 ↔ s.ip_updates ≠ 0) ∧
    (nd.instant_schema_change ≠ 0 ↔ s.instant_sc ≠ 0)

/-- The abort-marker path in the words of the specification, for a table `t`
with a persisted request: the persisted marker of `t` is cleared and no shadow
reconstruction takes place. -/
def abort_resume_as_specified (E : ResumeEnv) (t : TableMeta) : Prop :=
  (∃ rc, Call.bdb_set_in_schema_change_null t.dbname rc ∈ (add_schema_change_tables E).trace) ∧
    ∀ e ∈ (add_schema_change_tables E).trace, e.isReconstruction = false

/-- The sample startup when an earlier table `t0` also holds persisted request
data, which does not unpack. -/
def twoRequestsEnv : ResumeEnv :=
  { sampleResumeEnv with
    dbs := [{ dbname := "t0", has_packed_sc_data := true, unpack_rc := 1 }, sampleTable] }

/-- The calls the loop of `add_schema_change_tables` makes for a run of tables
it skips: the marker read of each table, followed by an error log when that read
failed (`noerr` is `BDBERR_NOERROR`). -/
def skip_trace (noerr : Int) : List TableMeta → List Call
  | [] => []
  | u :: rest =>
    (if u.get_in_schema_change_rc ≠ 0 ∨ u.bdberr ≠ noerr then
      [Call.bdb_get_in_schema_change u.dbname u.get_in_schema_change_rc u.bdberr,
        .logmsg_error]
     else [Call.bdb_get_in_schema_change u.dbname u.get_in_schema_change_rc u.bdberr]) ++
      skip_trace noerr rest

/-- The same startup with no operator abort marker on disk. -/
def ResumeEnv.no_marker (E : ResumeEnv) : ResumeEnv :=
  { E with abort_marker_present := false }

/-! ## Theorems: live-sync interceptors -/

/-- The trace-free core of the guards: on a live-linked origin table whose
genid maps to an in-range stripe, the range test of the interceptors fails. -/
theorem range_guard_false (G : LiveGlobals) (genid : Nat)
    (hlo : 0 ≤ G.get_dtafile_from_genid genid)
    (hhi : G.get_dtafile_from_genid genid < G.gbl_dtastripe) :
    ¬ (G.get_dtafile_from_genid genid < 0 ∨
        G.get_dtafile_from_genid genid ≥ G.gbl_dtastripe) := by
  intro h
  rcases h with h | h
  · exact absurd hlo (not_le.mpr h)
  · exact absurd hhi (not_lt.mpr h)

/-- C4: on a live-linked origin table whose genid maps to an in-range stripe
with a nonzero cursor, `live_sc_post_delete` mirrors a delete of the genid, and
returns its status, exactly when the genid is at or before the cursor (equality
included); strictly past the cursor it mirrors nothing and returns 0. -/
theorem live_sc_post_delete_routing (G : LiveGlobals) (iq : ireq) (genid : Nat)
    (hlive : G.sc_live = true) (hfrom : iq.usedb.sc_from_is_self = true)
    (hlo : 0 ≤ G.get_dtafile_from_genid genid)
    (hhi : G.get_dtafile_from_genid genid < G.gbl_dtastripe)
    (hcur : iq.usedb.sc_genids (G.get_dtafile_from_genid genid) ≠ 0) :
    (genid ≤ iq.usedb.sc_genids (G.get_dtafile_from_genid genid) →
      mirrored (live_sc_post_delete G iq genid) = [.live_sc_post_delete_int genid] ∧
      (live_sc_post_delete G iq genid).rc = G.post_delete_int_rc genid) ∧
    (iq.usedb.sc_genids (G.get_dtafile_from_genid genid) < genid →
      mirrored (live_sc_post_delete G iq genid) = [] ∧
      (live_sc_post_delete G iq genid).rc = 0) ∧
    (LiveEvent.live_sc_post_delete_int genid ∈ mirrored (live_sc_post_delete G iq genid) ↔
      genid ≤ iq.usedb.sc_genids (G.get_dtafile_from_genid genid)) := by
  have hr := range_guard_false G genid hlo hhi
  by_cases hc : iq.usedb.sc_genids (G.get_dtafile_from_genid genid) < genid
  · have hle : ¬ genid ≤ iq.usedb.sc_genids (G.get_dtafile_from_genid genid) := not_le.mpr hc
    simp [live_sc_post_delete, mirrored, LiveEvent.isMirror, hlive, hfrom, hr, hcur,
      is_genid_right_of_stripe_pointer, hc, hle]
  · have hle : genid ≤ iq.usedb.sc_genids (G.get_dtafile_from_genid genid) := not_lt.mp hc
    simp [live_sc_post_delete, mirrored, LiveEvent.isMirror, hlive, hfrom, hr, hcur,
      is_genid_right_of_stripe_pointer, hc, hle]

/-- Witness for C4 at the boundary: cursor 1000, genid 1000 is mirrored as a
delete whose status (12) is returned. -/
theorem live_sc_post_delete_routing_witness :
    (1000 ≤ 1000 →
      mirrored (live_sc_post_delete statusGlobals (linkedReq 1000 false) 1000)
        = [.live_sc_post_delete_int 1000] ∧
      (live_sc_post_delete statusGlobals (linkedReq 1000 false) 1000).rc = 12) ∧
    (1000 < 1000 →
      mirrored (live_sc_post_delete statusGlobals (linkedReq 1000 false) 1000) = [] ∧
      (live_sc_post_delete statusGlobals (linkedReq 1000 false) 1000).rc = 0) ∧
    (LiveEvent.live_sc_post_delete_int 1000 ∈
        mirrored (live_sc_post_delete statusGlobals (linkedReq 1000 false) 1000) ↔
      1000 ≤ 1000) :=
  live_sc_post_delete_routing statusGlobals (linkedReq 1000 false) 1000 rfl rfl
    (by decide) (by decide) (by decide)

/-- C3 (amended): on a live-linked origin table whose genid maps to an in-range
stripe with a nonzero cursor, `live_sc_post_add` mirrors an add of the genid,
and returns its status, when the genid is at or before the cursor; when the
genid is strictly past the cursor it mirrors nothing and returns 0. -/
theorem live_sc_post_add_routing (G : LiveGlobals) (iq : ireq) (genid : Nat)
    (hlive : G.sc_live = true) (hfrom : iq.usedb.sc_from_is_self = true)
    (hlo : 0 ≤ G.get_dtafile_from_genid genid)
    (hhi : G.get_dtafile_from_genid genid < G.gbl_dtastripe)
    (hcur : iq.usedb.sc_genids (G.get_dtafile_from_genid genid) ≠ 0) :
    (genid ≤ iq.usedb.sc_genids (G.get_dtafile_from_genid genid) →
      mirrored (live_sc_post_add G iq genid) = [.live_sc_post_add_int genid] ∧
      (live_sc_post_add G iq genid).rc = G.post_add_int_rc genid) ∧
    (iq.usedb.sc_genids (G.get_dtafile_from_genid genid) < genid →
      mirrored (live_sc_post_add G iq genid) = [] ∧
      (live_sc_post_add G iq genid).rc = 0) := by
  have hr := range_guard_false G genid hlo hhi
  by_cases hc : iq.usedb.sc_genids (G.get_dtafile_from_genid genid) < genid
  · have hle : ¬ genid ≤ iq.usedb.sc_genids (G.get_dtafile_from_genid genid) := not_le.mpr hc
    simp [live_sc_post_add, mirrored, LiveEvent.isMirror, hlive, hfrom, hr, hcur,
      is_genid_right_of_stripe_pointer, hc, hle]
  · have hle : genid ≤ iq.usedb.sc_genids (G.get_dtafile_from_genid genid) := not_lt.mp hc
    simp [live_sc_post_add, mirrored, LiveEvent.isMirror, hlive, hfrom, hr, hcur,
      is_genid_right_of_stripe_pointer, hc, hle]

/-- Witness for C3 (amended): at cursor 1000 the insert of genid 999 is mirrored
with status 11, and the insert of genid 1001 is not. -/
theorem live_sc_post_add_routing_witness :
    ((999 ≤ 1000 →
        mirrored (live_sc_post_add statusGlobals (linkedReq 1000 false) 999)
          = [.live_sc_post_add_int 999] ∧
        (live_sc_post_add statusGlobals (linkedReq 1000 false) 999).rc = 11) ∧
      (1000 < 999 →
        mirrored (live_sc_post_add statusGlobals (linkedReq 1000 false) 999) = [] ∧
        (live_sc_post_add statusGlobals (linkedReq 1000 false) 999).rc = 0)) ∧
    ((1001 ≤ 1000 →
        mirrored (live_sc_post_add statusGlobals (linkedReq 1000 false) 1001)
          = [.live_sc_post_add_int 1001] ∧
        (live_sc_post_add statusGlobals (linkedReq 1000 false) 1001).rc = 11) ∧
      (1000 < 1001 →
        mirrored (live_sc_post_add statusGlobals (linkedReq 1000 false) 1001) = [] ∧
        (live_sc_post_add statusGlobals (linkedReq 1000 false) 1001).rc = 0)) :=
  ⟨live_sc_post_add_routing statusGlobals (linkedReq 1000 false) 999 rfl rfl
      (by decide) (by decide) (by decide),
    live_sc_post_add_routing statusGlobals (linkedReq 1000 false) 1001 rfl rfl
      (by decide) (by decide) (by decide)⟩

/-- C3 as written fails: with one in-range stripe whose cursor is 1000, the
insert of genid 1001 (strictly past the cursor) mirrors nothing and returns 0
although the add worker would return 11, and the insert of genid 999 (before the
cursor) is mirrored; the routing worded by the specification holds at neither. -/
theorem live_sc_post_add_spec_routing_refuted :
    mirrored (live_sc_post_add statusGlobals (linkedReq 1000 false) 1001) = [] ∧
    (live_sc_post_add statusGlobals (linkedReq 1000 false) 1001).rc = 0 ∧
    mirrored (live_sc_post_add statusGlobals (linkedReq 1000 false) 999)
      = [.live_sc_post_add_int 999] ∧
    ¬ post_add_routing_as_specified statusGlobals (linkedReq 1000 false) 1001 ∧
    ¬ post_add_routing_as_specified statusGlobals (linkedReq 1000 false) 999 := by
  refine ⟨by decide, by decide, by decide, ?_, ?_⟩
  · intro h
    have h1 := (h.1 (by decide)).1
    revert h1
    decide
  · intro h
    have h1 := (h.2 (by decide)).1
    revert h1
    decide

/-- C5: when the cursor of the genid's stripe is zero, `live_sc_post_add` and
`live_sc_post_delete` return 0 and mirror nothing, and so does
`live_sc_post_update` for every new genid when the cursor of the old genid's
stripe is zero. -/
theorem zero_cursor_suppression (G : LiveGlobals) (iq : ireq) (genid newgenid : Nat)
    (updCols : List Int)
    (h0 : iq.usedb.sc_genids (G.get_dtafile_from_genid genid) = 0) :
    ((live_sc_post_add G iq genid).rc = 0 ∧ mirrored (live_sc_post_add G iq genid) = []) ∧
    ((live_sc_post_delete G iq genid).rc = 0 ∧
      mirrored (live_sc_post_delete G iq genid) = []) ∧
    ((live_sc_post_update G iq genid newgenid updCols).rc = 0 ∧
      mirrored (live_sc_post_update G iq genid newgenid updCols) = []) := by
  refine ⟨?_, ?_, ?_⟩
  · cases hl : G.sc_live <;> cases hf : iq.usedb.sc_from_is_self <;>
      by_cases hr : (G.get_dtafile_from_genid genid < 0 ∨
        G.get_dtafile_from_genid genid ≥ G.gbl_dtastripe) <;>
      simp [live_sc_post_add, mirrored, LiveEvent.isMirror, hl, hf, hr, h0]
  · cases hl : G.sc_live <;> cases hf : iq.usedb.sc_from_is_self <;>
      by_cases hr : (G.get_dtafile_from_genid genid < 0 ∨
        G.get_dtafile_from_genid genid ≥ G.gbl_dtastripe) <;>
      simp [live_sc_post_delete, mirrored, LiveEvent.isMirror, hl, hf, hr, h0]
  · cases hl : G.sc_live <;> cases hf : iq.usedb.sc_from_is_self <;>
      by_cases hr : (G.get_dtafile_from_genid genid < 0 ∨
        G.get_dtafile_from_genid genid ≥ G.gbl_dtastripe) <;>
      simp [live_sc_post_update, mirrored, LiveEvent.isMirror, hl, hf, hr, h0]

/-- Witness for C5: four stripes with every cursor at zero; genid 1001 (stripe 1)
and the update 1001 to 1005 are not mirrored. -/
theorem zero_cursor_suppression_witness :
    (linkedReq 0 true).usedb.sc_genids (sampleGlobals.get_dtafile_from_genid 1001) = 0 ∧
    (((live_sc_post_add sampleGlobals (linkedReq 0 true) 1001).rc = 0 ∧
        mirrored (live_sc_post_add sampleGlobals (linkedReq 0 true) 1001) = []) ∧
      ((live_sc_post_delete sampleGlobals (linkedReq 0 true) 1001).rc = 0 ∧
        mirrored (live_sc_post_delete sampleGlobals (linkedReq 0 true) 1001) = []) ∧
      ((live_sc_post_update sampleGlobals (linkedReq 0 true) 1001 1005 [2]).rc = 0 ∧
        mirrored (live_sc_post_update sampleGlobals (linkedReq 0 true) 1001 1005 [2]) = [])) :=
  ⟨rfl, zero_cursor_suppression sampleGlobals (linkedReq 0 true) 1001 1005 [2] rfl⟩

/-- C2: on a live-linked origin table whose old genid maps to an in-range stripe
with a nonzero cursor, `live_sc_post_update` takes exactly one of four actions:
both genids strictly past the cursor, nothing is mirrored and 0 is returned; old
at or before and new strictly past, only a delete of the old genid; old strictly
past and new at or before, only an add of the new genid; both at or before, only
an update old to new carrying the changed-columns array. In the three mirroring
cases the mirrored operation's status is returned. -/
theorem live_sc_post_update_four_way (G : LiveGlobals) (iq : ireq)
    (oldgenid newgenid : Nat) (updCols : List Int)
    (hlive : G.sc_live = true) (hfrom : iq.usedb.sc_from_is_self = true)
    (hlo : 0 ≤ G.get_dtafile_from_genid oldgenid)
    (hhi : G.get_dtafile_from_genid oldgenid < G.gbl_dtastripe)
    (hcur : iq.usedb.sc_genids (G.get_dtafile_from_genid oldgenid) ≠ 0) :
    (iq.usedb.sc_genids (G.get_dtafile_from_genid oldgenid) < oldgenid ∧
        iq.usedb.sc_genids (G.get_dtafile_from_genid oldgenid) < newgenid →
      mirrored (live_sc_post_update G iq oldgenid newgenid updCols) = [] ∧
      (live_sc_post_update G iq oldgenid newgenid updCols).rc = 0) ∧
    (oldgenid ≤ iq.usedb.sc_genids (G.get_dtafile_from_genid oldgenid) ∧
        iq.usedb.sc_genids (G.get_dtafile_from_genid oldgenid) < newgenid →
      mirrored (live_sc_post_update G iq oldgenid newgenid updCols)
        = [.live_sc_post_delete_int oldgenid] ∧
      (live_sc_post_update G iq oldgenid newgenid updCols).rc
        = G.post_delete_int_rc oldgenid) ∧
    (iq.usedb.sc_genids (G.get_dtafile_from_genid oldgenid) < oldgenid ∧
        newgenid ≤ iq.usedb.sc_genids (G.get_dtafile_from_genid oldgenid) →
      mirrored (live_sc_post_update G iq oldgenid newgenid updCols)
        = [.live_sc_post_add_int newgenid] ∧
      (live_sc_post_update G iq oldgenid newgenid updCols).rc
        = G.post_add_int_rc newgenid) ∧
    (oldgenid ≤ iq.usedb.sc_genids (G.get_dtafile_from_genid oldgenid) ∧
        newgenid ≤ iq.usedb.sc_genids (G.get_dtafile_from_genid oldgenid) →
      mirrored (live_sc_post_update G iq oldgenid newgenid updCols)
        = [.live_sc_post_update_int oldgenid newgenid updCols] ∧
      (live_sc_post_update G iq oldgenid newgenid updCols).rc
        = G.post_update_int_rc oldgenid newgenid) := by
  have hr := range_guard_false G oldgenid hlo hhi
  by_cases ho : iq.usedb.sc_genids (G.get_dtafile_from_genid oldgenid) < oldgenid <;>
    by_cases hn : iq.usedb.sc_genids (G.get_dtafile_from_genid oldgenid) < newgenid <;>
    cases hd : iq.debug <;>
    simp [live_sc_post_update, mirrored, LiveEvent.isMirror, dbg, dbg_case, hlive, hfrom, hr,
      hcur, is_genid_right_of_stripe_pointer, ho, hn, hd, not_le.mpr, not_lt.mp]

/-- Witness for C2, the boundary routing at cursor 1000 (statuses: add 11,
delete 12, update 13): (999, 1001) mirrors delete(999); (1001, 999) mirrors
add(999); (999, 998) mirrors update(999 to 998); (1002, 1005) mirrors nothing. -/
theorem live_sc_post_update_four_way_witness :
    (mirrored (live_sc_post_update statusGlobals (linkedReq 1000 true) 999 1001 [3])
        = [.live_sc_post_delete_int 999] ∧
      (live_sc_post_update statusGlobals (linkedReq 1000 true) 999 1001 [3]).rc = 12) ∧
    (mirrored (live_sc_post_update statusGlobals (linkedReq 1000 true) 1001 999 [3])
        = [.live_sc_post_add_int 999] ∧
      (live_sc_post_update statusGlobals (linkedReq 1000 true) 1001 999 [3]).rc = 11) ∧
    (mirrored (live_sc_post_update statusGlobals (linkedReq 1000 true) 999 998 [3])
        = [.live_sc_post_update_int 999 998 [3]] ∧
      (live_sc_post_update statusGlobals (linkedReq 1000 true) 999 998 [3]).rc = 13) ∧
    (mirrored (live_sc_post_update statusGlobals (linkedReq 1000 true) 1002 1005 [3]) = [] ∧
      (live_sc_post_update statusGlobals (linkedReq 1000 true) 1002 1005 [3]).rc = 0) :=
  ⟨(live_sc_post_update_four_way statusGlobals (linkedReq 1000 true) 999 1001 [3] rfl rfl
      (by decide) (by decide) (by decide)).2.1 ⟨by decide, by decide⟩,
    (live_sc_post_update_four_way statusGlobals (linkedReq 1000 true) 1001 999 [3] rfl rfl
      (by decide) (by decide) (by decide)).2.2.1 ⟨by decide, by decide⟩,
    (live_sc_post_update_four_way statusGlobals (linkedReq 1000 true) 999 998 [3] rfl rfl
      (by decide) (by decide) (by decide)).2.2.2 ⟨by decide, by decide⟩,
    (live_sc_post_update_four_way statusGlobals (linkedReq 1000 true) 1002 1005 [3] rfl rfl
      (by decide) (by decide) (by decide)).1 ⟨by decide, by decide⟩⟩

/-! ## Theorems: exactly-once representation -/

/-- Closed form of what `live_sc_post_add` mirrors on a live-linked origin table
for a genid of an in-range stripe. -/
theorem mirrored_post_add_eq (G : LiveGlobals) (iq : ireq) (genid : Nat)
    (hlive : G.sc_live = true) (hfrom : iq.usedb.sc_from_is_self = true)
    (hlo : 0 ≤ G.get_dtafile_from_genid genid)
    (hhi : G.get_dtafile_from_genid genid < G.gbl_dtastripe) :
    mirrored (live_sc_post_add G iq genid) =
      if iq.usedb.sc_genids (G.get_dtafile_from_genid genid) ≠ 0 ∧
          genid ≤ iq.usedb.sc_genids (G.get_dtafile_from_genid genid)
      then [.live_sc_post_add_int genid] else [] := by
  have hr := range_guard_false G genid hlo hhi
  by_cases hz : iq.usedb.sc_genids (G.get_dtafile_from_genid genid) = 0 <;>
    by_cases hc : iq.usedb.sc_genids (G.get_dtafile_from_genid genid) < genid <;>
    simp [live_sc_post_add, mirrored, LiveEvent.isMirror, hlive, hfrom, hr, hz, hc,
      is_genid_right_of_stripe_pointer, not_le.mpr, not_lt.mp]

/-- Closed form of what `live_sc_post_delete` mirrors on a live-linked origin
table for a genid of an in-range stripe. -/
theorem mirrored_post_delete_eq (G : LiveGlobals) (iq : ireq) (genid : Nat)
    (hlive : G.sc_live = true) (hfrom : iq.usedb.sc_from_is_self = true)
    (hlo : 0 ≤ G.get_dtafile_from_genid genid)
    (hhi : G.get_dtafile_from_genid genid < G.gbl_dtastripe) :
    mirrored (live_sc_post_delete G iq genid) =
      if iq.usedb.sc_genids (G.get_dtafile_from_genid genid) ≠ 0 ∧
          genid ≤ iq.usedb.sc_genids (G.get_dtafile_from_genid genid)
      then [.live_sc_post_delete_int genid] else [] := by
  have hr := range_guard_false G genid hlo hhi
  by_cases hz : iq.usedb.sc_genids (G.get_dtafile_from_genid genid) = 0 <;>
    by_cases hc : iq.usedb.sc_genids (G.get_dtafile_from_genid genid) < genid <;>
    simp [live_sc_post_delete, mirrored, LiveEvent.isMirror, hlive, hfrom, hr, hz, hc,
      is_genid_right_of_stripe_pointer, not_le.mpr, not_lt.mp]

/-- Closed form of what `live_sc_post_update` mirrors on a live-linked origin
table when the old genid belongs to an in-range stripe. -/
theorem mirrored_post_update_eq (G : LiveGlobals) (iq : ireq) (oldgenid newgenid : Nat)
    (updCols : List Int)
    (hlive : G.sc_live = true) (hfrom : iq.usedb.sc_from_is_self = true)
    (hlo : 0 ≤ G.get_dtafile_from_genid oldgenid)
    (hhi : G.get_dtafile_from_genid oldgenid < G.gbl_dtastripe) :
    mirrored (live_sc_post_update G iq oldgenid newgenid updCols) =
      if iq.usedb.sc_genids (G.get_dtafile_from_genid oldgenid) = 0 then []
      else if oldgenid ≤ iq.usedb.sc_genids (G.get_dtafile_from_genid oldgenid) then
        if newgenid ≤ iq.usedb.sc_genids (G.get_dtafile_from_genid oldgenid) then
          [.live_sc_post_update_int oldgenid newgenid updCols]
        else [.live_sc_post_delete_int oldgenid]
      else if newgenid ≤ iq.usedb.sc_genids (G.get_dtafile_from_genid oldgenid) then
        [.live_sc_post_add_int newgenid]
      else [] := by
  have hr := range_guard_false G oldgenid hlo hhi
  by_cases hz : iq.usedb.sc_genids (G.get_dtafile_from_genid oldgenid) = 0 <;>
    by_cases ho : iq.usedb.sc_genids (G.get_dtafile_from_genid oldgenid) < oldgenid <;>
    by_cases hn : iq.usedb.sc_genids (G.get_dtafile_from_genid oldgenid) < newgenid <;>
    cases hd : iq.debug <;>
    simp [live_sc_post_update, mirrored, LiveEvent.isMirror, dbg, dbg_case, hlive, hfrom, hr,
      hz, ho, hn, hd, is_genid_right_of_stripe_pointer, not_le.mpr, not_lt.mp]

/-- Multiplicity of a genid in the range copied by one copier step. -/
theorem count_copied_range (l : List Nat) (c upto g : Nat) :
    (l.filter fun x => decide (c < x ∧ x ≤ upto)).count g =
      if c < g ∧ g ≤ upto then l.count g else 0 := by
  by_cases h : c < g ∧ g ≤ upto
  · rw [if_pos h]
    exact List.count_filter (by simpa using h)
  · rw [if_neg h]
    apply List.count_eq_zero.mpr
    intro hm
    have := (List.mem_filter.mp hm).2
    exact h (by simpa using this)

/-- The start state satisfies the invariant. -/
theorem shadowInv_start (origin : List Nat) (hnodup : origin.Nodup) (hnz : 0 ∉ origin) :
    ShadowInv (startState origin) := by
  refine ⟨hnodup, hnz, fun g => ?_⟩
  by_cases hg : g = 0
  · subst hg
    simp [startState, List.count_eq_zero.mpr hnz]
  · simp [startState, hg]

/-- A copier step preserves the invariant. -/
theorem shadowInv_copier (σ σ' : TableState) (upto : Nat) (hinv : ShadowInv σ)
    (hstep : copier_step σ upto = some σ') : ShadowInv σ' := by
  unfold copier_step at hstep
  split_ifs at hstep with hle
  cases hstep
  obtain ⟨hnd, hnz, hcnt⟩ := hinv
  refine ⟨hnd, hnz, fun g => ?_⟩
  simp only [List.count_append, count_copied_range, hcnt g]
  by_cases h1 : g ≤ σ.cursor <;> by_cases h2 : g ≤ upto <;>
    simp [h1, h2, not_lt.mpr, not_le.mp]
  all_goals omega

/-- A committed live insert preserves the invariant. -/
theorem shadowInv_add (G : LiveGlobals) (st : Int) (debug : Bool) (σ σ' : TableState)
    (g : Nat) (hlive : G.sc_live = true) (hlo : 0 ≤ st) (hhi : st < G.gbl_dtastripe)
    (hinv : ShadowInv σ) (hstep : dml_add G st debug σ g = some σ') : ShadowInv σ' := by
  simp only [dml_add] at hstep
  split_ifs at hstep with hpre hrc
  cases hstep
  obtain ⟨hg0, hgn, hgs⟩ := hpre
  obtain ⟨hnd, hnz, hcnt⟩ := hinv
  have hm : mirrored (live_sc_post_add G (σ.iq st debug) g) =
      if σ.cursor ≠ 0 ∧ g ≤ σ.cursor then [.live_sc_post_add_int g] else [] := by
    rw [mirrored_post_add_eq G (σ.iq st debug) g hlive rfl
      (by rw [hgs]; exact hlo) (by rw [hgs]; exact hhi)]
    simp [TableState.iq, hgs]
  refine ⟨List.nodup_cons.mpr ⟨hgn, hnd⟩, ?_, fun x => ?_⟩
  · simp only [List.mem_cons, not_or]
    exact ⟨fun h => hg0 h.symm, hnz⟩
  · have hx := hcnt x
    have hgc : σ.origin.count g = 0 := List.count_eq_zero.mpr hgn
    have h0c : σ.origin.count 0 = 0 := List.count_eq_zero.mpr hnz
    simp only [hm]
    by_cases hc : σ.cursor ≠ 0 ∧ g ≤ σ.cursor
    · simp only [if_pos hc, List.foldl, applyMirror, List.count_cons, hx]
      by_cases hxg : g = x
      · subst hxg
        simp [hc.2, hgc]
      · simp [hxg]
    · simp only [if_neg hc, List.foldl, List.count_cons, hx]
      by_cases hxg : g = x
      · subst hxg
        have : ¬ g ≤ σ.cursor := by
          intro hle
          apply hc
          exact ⟨by omega, hle⟩
        simp [this]
      · simp [hxg]

/-- A committed live delete preserves the invariant. -/
theorem shadowInv_del (G : LiveGlobals) (st : Int) (debug : Bool) (σ σ' : TableState)
    (g : Nat) (hlive : G.sc_live = true) (hlo : 0 ≤ st) (hhi : st < G.gbl_dtastripe)
    (hinv : ShadowInv σ) (hstep : dml_del G st debug σ g = some σ') : ShadowInv σ' := by
  simp only [dml_del] at hstep
  split_ifs at hstep with hpre hrc
  cases hstep
  obtain ⟨hgm, hgs⟩ := hpre
  obtain ⟨hnd, hnz, hcnt⟩ := hinv
  have hm : mirrored (live_sc_post_delete G (σ.iq st debug) g) =
      if σ.cursor ≠ 0 ∧ g ≤ σ.cursor then [.live_sc_post_delete_int g] else [] := by
    rw [mirrored_post_delete_eq G (σ.iq st debug) g hlive rfl
      (by rw [hgs]; exact hlo) (by rw [hgs]; exact hhi)]
    simp [TableState.iq, hgs]
  have hg0 : g ≠ 0 := fun h => hnz (h ▸ hgm)
  refine ⟨hnd.erase g, fun h => hnz (List.mem_of_mem_erase h), fun x => ?_⟩
  have hx := hcnt x
  simp only [hm]
  by_cases hc : σ.cursor ≠ 0 ∧ g ≤ σ.cursor
  · simp only [if_pos hc, List.foldl, applyMirror, List.count_erase, hx]
    by_cases hxc : x ≤ σ.cursor
    · simp [hxc]
    · simp [hxc]
  · simp only [if_neg hc, List.foldl, List.count_erase, hx]
    by_cases hxg : g = x
    · subst hxg
      have : ¬ g ≤ σ.cursor := fun hle => hc ⟨by omega, hle⟩
      simp [this]
    · simp [hxg]

/-- A committed live update preserves the invariant. -/
theorem shadowInv_upd (G : LiveGlobals) (st : Int) (debug : Bool) (σ σ' : TableState)
    (o n : Nat) (cols : List Int) (hlive : G.sc_live = true) (hlo : 0 ≤ st)
    (hhi : st < G.gbl_dtastripe) (hinv : ShadowInv σ)
    (hstep : dml_upd G st debug σ o n cols = some σ') : ShadowInv σ' := by
  simp only [dml_upd] at hstep
  split_ifs at hstep with hpre hrc
  cases hstep
  obtain ⟨hom, hos, hn0, hnm, -⟩ := hpre
  obtain ⟨hnd, hnz, hcnt⟩ := hinv
  have hm : mirrored (live_sc_post_update G (σ.iq st debug) o n cols) =
      if σ.cursor = 0 then []
      else if o ≤ σ.cursor then
        if n ≤ σ.cursor then [.live_sc_post_update_int o n cols]
        else [.live_sc_post_delete_int o]
      else if n ≤ σ.cursor then [.live_sc_post_add_int n]
      else [] := by
    rw [mirrored_post_update_eq G (σ.iq st debug) o n cols hlive rfl
      (by rw [hos]; exact hlo) (by rw [hos]; exact hhi)]
    simp [TableState.iq, hos]
  have ho0 : o ≠ 0 := fun h => hnz (h ▸ hom)
  have h0e : 0 ∉ σ.origin.erase o := fun h => hnz (List.mem_of_mem_erase h)
  refine ⟨List.nodup_cons.mpr ⟨hnm, hnd.erase o⟩, ?_, fun x => ?_⟩
  · simp only [List.mem_cons, not_or]
    exact ⟨fun h => hn0 h.symm, h0e⟩
  · have hx := hcnt x
    simp only [hm]
    by_cases hz : σ.cursor = 0
    · simp only [if_pos hz, List.foldl, List.count_cons, List.count_erase, hx]
      by_cases hx0 : x = 0
      · subst hx0
        simp [hz, List.count_eq_zero.mpr hnz, hn0]
      · have : ¬ x ≤ σ.cursor := by omega
        simp [this]
    · by_cases hoc : o ≤ σ.cursor <;> by_cases hnc : n ≤ σ.cursor <;>
        by_cases hxc : x ≤ σ.cursor <;> by_cases hxo : o = x <;> by_cases hxn : n = x <;>
        simp [hz, hoc, hnc, hxc, hxo, hxn, List.foldl, applyMirror, List.count_cons,
          List.count_erase, hx]

/-- Every step of the interleaving preserves the invariant. -/
theorem shadowInv_step (G : LiveGlobals) (st : Int) (debug : Bool) (σ σ' : TableState)
    (op : Op) (hlive : G.sc_live = true) (hlo : 0 ≤ st) (hhi : st < G.gbl_dtastripe)
    (hinv : ShadowInv σ) (hstep : step G st debug σ op = some σ') : ShadowInv σ' := by
  cases op with
  | copy upto => exact shadowInv_copier σ σ' upto hinv hstep
  | add g => exact shadowInv_add G st debug σ σ' g hlive hlo hhi hinv hstep
  | del g => exact shadowInv_del G st debug σ σ' g hlive hlo hhi hinv hstep
  | upd o n cols => exact shadowInv_upd G st debug σ σ' o n cols hlive hlo hhi hinv hstep

/-- Every interleaving preserves the invariant. -/
theorem shadowInv_run (G : LiveGlobals) (st : Int) (debug : Bool) (ops : List Op)
    (hlive : G.sc_live = true) (hlo : 0 ≤ st) (hhi : st < G.gbl_dtastripe) :
    ∀ σ σ' : TableState, ShadowInv σ → run G st debug σ ops = some σ' → ShadowInv σ' := by
  induction ops with
  | nil =>
    intro σ σ' hinv hrun
    simp only [run, Option.some.injEq] at hrun
    exact hrun ▸ hinv
  | cons op ops ih =>
    intro σ σ' hinv hrun
    simp only [run] at hrun
    cases hs : step G st debug σ op with
    | none => simp [hs] at hrun
    | some σ₁ =>
      rw [hs] at hrun
      exact ih σ₁ σ' (shadowInv_step G st debug σ σ₁ op hlive hlo hhi hinv hs) hrun

/-- C1: exactly-once representation. Start a migration of one in-range stripe
with an empty shadow and a zero cursor over origin records with unique nonzero
genids, and run any interleaving of copier steps (copy a range, then advance the
cursor monotonically) with committed live inserts, deletes and updates routed
through `live_sc_post_add`, `live_sc_post_delete` and `live_sc_post_update`. At
finalize time, when the cursor has passed every origin record, every record of
the origin is in the shadow exactly once, and the shadow holds nothing else. -/
theorem exactly_once_at_finalize (G : LiveGlobals) (st : Int) (debug : Bool)
    (origin : List Nat) (ops : List Op) (σ : TableState)
    (hlive : G.sc_live = true) (hlo : 0 ≤ st) (hhi : st < G.gbl_dtastripe)
    (hnodup : origin.Nodup) (hnz : 0 ∉ origin)
    (hrun : run G st debug (startState origin) ops = some σ)
    (hfin : ∀ g ∈ σ.origin, g ≤ σ.cursor) :
    ∀ g, (g ∈ σ.origin → σ.shadow.count g = 1) ∧ (g ∉ σ.origin → σ.shadow.count g = 0) := by
  obtain ⟨hnd, -, hcnt⟩ :=
    shadowInv_run G st debug ops hlive hlo hhi (startState origin) σ
      (shadowInv_start origin hnodup hnz) hrun
  intro g
  constructor
  · intro hg
    rw [hcnt g, if_pos (hfin g hg)]
    exact List.count_eq_one_of_mem hnd hg
  · intro hg
    rw [hcnt g, List.count_eq_zero.mpr hg]
    split_ifs <;> rfl

/-- Witness for C1: the interleaving `sampleOps` on stripe 1 of four, from origin
records 5 and 9, ends with origin and shadow both holding 21, 1 and 17; record
21 (copied by the last copier step) is in the shadow once and record 13
(replaced by a live update) is not in it. -/
theorem exactly_once_at_finalize_witness :
    run sampleGlobals 1 true (startState [5, 9]) sampleOps = some ⟨[21, 1, 17], [1, 17, 21], 30⟩ ∧
    ((21 ∈ [21, 1, 17] → [1, 17, 21].count 21 = 1) ∧
      (21 ∉ [21, 1, 17] → [1, 17, 21].count 21 = 0)) ∧
    ((13 ∈ [21, 1, 17] → [1, 17, 21].count 13 = 1) ∧
      (13 ∉ [21, 1, 17] → [1, 17, 21].count 13 = 0)) :=
  ⟨by decide,
    exactly_once_at_finalize sampleGlobals 1 true [5, 9] sampleOps ⟨[21, 1, 17], [1, 17, 21], 30⟩
      rfl (by decide) (by decide) (by decide) (by decide) (by decide) (by decide) 21,
    exactly_once_at_finalize sampleGlobals 1 true [5, 9] sampleOps ⟨[21, 1, 17], [1, 17, 21], 30⟩
      rfl (by decide) (by decide) (by decide) (by decide) (by decide) (by decide) 13⟩

/-! ## Theorems: orchestrator -/

/-- The cancellation wait makes `k` polls with `k ≤ maxcancelretry` (at least
one when `maxcancelretry` is positive): every poll but the last sees the flag
set, and when the wait ends early the last poll sees it cleared. -/
theorem cancel_wait_spec (du : Nat → Bool) :
    ∀ m n, ∃ k, k ≤ m ∧ (0 < m → 0 < k) ∧ cancel_wait du m n = (pollTrace du n k, n + k) ∧
      (∀ i, i + 1 < k → du (n + i) = true) ∧ (k < m → du (n + k - 1) = false) := by
  intro m
  induction m with
  | zero =>
    intro n
    exact ⟨0, le_refl 0, fun h => absurd h (lt_irrefl 0), rfl, fun i hi => by omega,
      fun h => by omega⟩
  | succ m ih =>
    intro n
    by_cases hd : du n = true
    · obtain ⟨k, hk, hpos, heq, hall, hlast⟩ := ih (n + 1)
      refine ⟨k + 1, by omega, fun _ => by omega, ?_, ?_, ?_⟩
      · simp only [cancel_wait, hd, Bool.not_true, heq, pollTrace]
        simp only [Bool.false_eq_true, if_false, Prod.mk.injEq, true_and]
        omega
      · intro i hi
        cases i with
        | zero => simpa using hd
        | succ j =>
          have := hall j (by omega)
          have e : n + (j + 1) = n + 1 + j := by omega
          rw [e]
          exact this
      · intro hlt
        have hk0 : 0 < k := hpos (by omega)
        have := hlast (by omega)
        have e : n + (k + 1) - 1 = n + 1 + k - 1 := by omega
        rw [e]
        exact this
    · have hf : du n = false := by simpa using hd
      refine ⟨1, by omega, fun _ => by omega, ?_, fun i hi => by omega, fun _ => ?_⟩
      · simp [cancel_wait, hf, pollTrace]
      · simpa using hf

/-- The polls are sleeps and flag reads only. -/
theorem mem_pollTrace (du : Nat → Bool) :
    ∀ k n e, e ∈ pollTrace du n k → e = .sleep 1 ∨ ∃ v, e = .read_doing_upgrade v := by
  intro k
  induction k with
  | zero => intro n e h; simp [pollTrace] at h
  | succ k ih =>
    intro n e h
    simp only [pollTrace, List.mem_cons] at h
    rcases h with h | h | h
    · exact Or.inl h
    · exact Or.inr ⟨_, h⟩
    · exact ih (n + 1) e h

/-- A predicate that rejects sleeps and flag reads counts nothing in the polls. -/
theorem countP_pollTrace (du : Nat → Bool) (p : ScEvent → Bool) (k n : Nat)
    (hs : p (.sleep 1) = false) (hr : ∀ v, p (.read_doing_upgrade v) = false) :
    (pollTrace du n k).countP p = 0 := by
  apply List.countP_eq_zero.mpr
  intro e he
  rcases mem_pollTrace du k n e he with h | ⟨v, h⟩
  · simp [h, hs]
  · simp [h, hr]

/-- The polls never free the request. -/
theorem count_free_pollTrace (du : Nat → Bool) (k n : Nat) :
    (pollTrace du n k).count .free_schema_change_type = 0 := by
  apply List.count_eq_zero.mpr
  intro he
  rcases mem_pollTrace du k n _ he with h | ⟨v, h⟩ <;> cases h

/-- The monitor distributes over concatenation. -/
theorem claimedBeforeDispatch_append (xs ys : List ScEvent) :
    ∀ c, claimedBeforeDispatch c (xs ++ ys) =
      (claimedBeforeDispatch c xs &&
        claimedBeforeDispatch (c || xs.any fun e => e.claimedSeed.isSome) ys) := by
  induction xs with
  | nil => intro c; simp [claimedBeforeDispatch]
  | cons x xs ih =>
    intro c
    rw [List.cons_append]
    simp only [claimedBeforeDispatch]
    rw [ih]
    simp only [List.any_cons, Bool.and_assoc, Bool.or_assoc]

/-- The monitor accepts a trace without dispatch events. -/
theorem claimedBeforeDispatch_quiet (l : List ScEvent) (h : ∀ e ∈ l, e.isDispatch = false) :
    ∀ c, claimedBeforeDispatch c l = true := by
  induction l with
  | nil => intro c; rfl
  | cons x xs ih =>
    intro c
    simp only [claimedBeforeDispatch, h x (List.mem_cons_self _ _), Bool.not_false,
      Bool.true_or, Bool.true_and]
    exact ih (fun e he => h e (List.mem_cons_of_mem _ he)) _

/-- What the monitor means: in an accepted trace every dispatch event is
preceded by a successful claim (unless one was already seen). -/
theorem claimedBeforeDispatch_sound :
    ∀ (pre : List ScEvent) (c : Bool) (e : ScEvent) (post : List ScEvent),
      claimedBeforeDispatch c (pre ++ e :: post) = true → e.isDispatch = true →
      c = true ∨ ∃ seed, ScEvent.sc_set_running 1 seed 0 ∈ pre := by
  intro pre
  induction pre with
  | nil =>
    intro c e post h hd
    simp only [List.nil_append, claimedBeforeDispatch, hd, Bool.not_true, Bool.false_or,
      Bool.and_eq_true] at h
    exact Or.inl h.1
  | cons x pre ih =>
    intro c e post h hd
    simp only [List.cons_append, claimedBeforeDispatch, Bool.and_eq_true] at h
    rcases ih _ e post h.2 hd with hc | ⟨seed, hs⟩
    · simp only [Bool.or_eq_true] at hc
      rcases hc with hc | hc
      · exact Or.inl hc
      · right
        cases x <;> simp [ScEvent.claimedSeed] at hc
        rename_i running seed rc
        match running, rc, hc with
        | 1, 0, _ => exact ⟨seed, List.mem_cons_self _ _⟩
    · exact Or.inr ⟨seed, List.mem_cons_of_mem _ hs⟩

/-- The path of `start_schema_change` on which the first claim succeeds. -/
theorem start_first_claim_shape (K : ScCodes) (E : ScEnv) (s : schema_change_type)
    (hm : E.master_is_me = true) (hseed : s.resume ≠ 0 → E.fetch_seed_rc = 0)
    (hok : E.set_running_rc_first = 0) :
    start_schema_change K E s =
      dispatch_schema_change K E s
        ([ScEvent.set_original_master_node] ++
          (if s.resume ≠ 0 then [ScEvent.fetch_schema_change_seed E.fetch_seed_rc]
           else [ScEvent.get_genid E.genid_seed]) ++
          [.sc_set_running 1 (acquired_seed E s) 0]) := by
  have h1 : ¬ (s.resume ≠ 0 ∧ E.fetch_seed_rc ≠ 0) := fun h => h.2 (hseed h.1)
  simp only [start_schema_change, hm, Bool.not_true, Bool.false_eq_true, if_false, h1, hok,
    ne_eq, not_true_eq_false]

/-- The path of `start_schema_change` on which the first claim fails and the
conflict is terminal. -/
theorem start_conflict_shape (K : ScCodes) (E : ScEnv) (s : schema_change_type)
    (hm : E.master_is_me = true) (hseed : s.resume ≠ 0 → E.fetch_seed_rc = 0)
    (hfail : E.set_running_rc_first ≠ 0)
    (hterm : E.doing_upgrade 0 = false ∨ s.fulluprecs ≠ 0 ∨ s.partialuprecs ≠ 0) :
    start_schema_change K E s =
      ⟨K.SC_CANT_SET_RUNNING, claimFailTrace E s ++ [.free_schema_change_type]⟩ := by
  have h1 : ¬ (s.resume ≠ 0 ∧ E.fetch_seed_rc ≠ 0) := fun h => h.2 (hseed h.1)
  have h2 : (!E.doing_upgrade 0) = true ∨ s.fulluprecs ≠ 0 ∨ s.partialuprecs ≠ 0 := by
    rcases hterm with h | h
    · exact Or.inl (by simp [h])
    · exact Or.inr h
  simp only [start_schema_change, hm, Bool.not_true, Bool.false_eq_true, if_false, h1, hfail,
    ne_eq, not_false_eq_true, if_true, claimFailTrace, List.append_assoc]
  rw [if_pos h2]
  simp only [List.cons_append, List.nil_append]

/-- The path of `start_schema_change` on which the first claim fails and a
maintenance upgrade is preempted: the wait makes `k` polls, between 1 and 10,
stopping at the first poll that sees `doing_upgrade` cleared. -/
theorem start_preempt_shape (K : ScCodes) (E : ScEnv) (s : schema_change_type)
    (hm : E.master_is_me = true) (hseed : s.resume ≠ 0 → E.fetch_seed_rc = 0)
    (hfail : E.set_running_rc_first ≠ 0) (hdu : E.doing_upgrade 0 = true)
    (hfull : s.fulluprecs = 0) (hpart : s.partialuprecs = 0) :
    ∃ k, 1 ≤ k ∧ k ≤ 10 ∧ (∀ i, 1 ≤ i → i < k → E.doing_upgrade i = true) ∧
      (k < 10 → E.doing_upgrade k = false) ∧
      start_schema_change K E s =
        if E.doing_upgrade (k + 1) = true then
          ⟨K.SC_CANT_SET_RUNNING, preemptTrace E s k ++ [.sc_errf, .free_schema_change_type]⟩
        else if E.set_running_rc_retry ≠ 0 then
          ⟨K.SC_CANT_SET_RUNNING,
            preemptTrace E s k ++ [.get_genid E.genid_retry,
              .sc_set_running 1 E.genid_retry E.set_running_rc_retry,
              .free_schema_change_type]⟩
        else
          dispatch_schema_change K E s
            (preemptTrace E s k ++ [.get_genid E.genid_retry,
              .sc_set_running 1 E.genid_retry E.set_running_rc_retry]) := by
  obtain ⟨k, hk, hpos, heq, hall, hlast⟩ := cancel_wait_spec E.doing_upgrade 10 1
  have h1 : ¬ (s.resume ≠ 0 ∧ E.fetch_seed_rc ≠ 0) := fun h => h.2 (hseed h.1)
  have h2 : ¬ ((!E.doing_upgrade 0) = true ∨ s.fulluprecs ≠ 0 ∨ s.partialuprecs ≠ 0) := by
    simp [hdu, hfull, hpart]
  refine ⟨k, hpos (by omega), hk, ?_, ?_, ?_⟩
  · intro i h1i hik
    have := hall (i - 1) (by omega)
    have e : 1 + (i - 1) = i := by omega
    rwa [e] at this
  · intro hlt
    have := hlast hlt
    have e : 1 + k - 1 = k := by omega
    rwa [e] at this
  · have e : 1 + k = k + 1 := by omega
    simp only [start_schema_change, hm, Bool.not_true, Bool.false_eq_true, if_false, h1, hfail,
      ne_eq, not_false_eq_true, if_true, heq, e, preemptTrace, claimFailTrace,
      List.append_assoc]
    rw [if_neg h2]
    by_cases h3 : E.doing_upgrade (k + 1) = true
    · simp only [h3, if_true, List.append_assoc, List.cons_append, List.nil_append]
    · by_cases h4 : E.set_running_rc_retry = 0
      · simp only [h3, if_false, h4, not_true_eq_false, List.append_assoc, List.cons_append,
          List.nil_append]
      · simp only [h3, if_false, h4, not_false_eq_true, if_true, List.append_assoc,
          List.cons_append, List.nil_append]

/-- Up to the failed first claim nothing is freed, exactly one claim is
attempted, the abort signal is not set and nothing is dispatched. -/
theorem claimFailTrace_facts (E : ScEnv) (s : schema_change_type) :
    (claimFailTrace E s).count .free_schema_change_type = 0 ∧
    (claimFailTrace E s).countP ScEvent.isClaim = 1 ∧
    ScEvent.set_gbl_sc_abort ∉ claimFailTrace E s ∧
    (∀ e ∈ claimFailTrace E s, e.isDispatch = false) := by
  by_cases hr : s.resume = 0 <;>
    simp [claimFailTrace, hr, List.count_cons, List.countP_cons, ScEvent.isClaim,
      ScEvent.isDispatch]

/-- Through the end of the cancellation wait nothing is freed, exactly one claim
has been attempted, the abort signal is set and nothing is dispatched. -/
theorem preemptTrace_facts (E : ScEnv) (s : schema_change_type) (k : Nat) :
    (preemptTrace E s k).count .free_schema_change_type = 0 ∧
    (preemptTrace E s k).countP ScEvent.isClaim = 1 ∧
    ScEvent.set_gbl_sc_abort ∈ preemptTrace E s k ∧
    (∀ e ∈ preemptTrace E s k, e.isDispatch = false) := by
  obtain ⟨h1, h2, -, h4⟩ := claimFailTrace_facts E s
  refine ⟨?_, ?_, ?_, ?_⟩
  · simp [preemptTrace, List.count_append, h1, count_free_pollTrace, List.count_cons]
  · simp [preemptTrace, List.countP_append, h2, List.countP_cons, ScEvent.isClaim,
      countP_pollTrace E.doing_upgrade ScEvent.isClaim k 1 rfl (fun _ => rfl)]
  · simp [preemptTrace]
  · intro e he
    simp only [preemptTrace, List.mem_append, List.mem_singleton] at he
    rcases he with ((he | he) | he) | he
    · exact h4 e he
    · subst he; rfl
    · rcases mem_pollTrace _ _ _ _ he with h | ⟨v, h⟩ <;> subst h <;> rfl
    · subst he; rfl

/-- The monitor accepts everything once a claim has succeeded. -/
theorem claimedBeforeDispatch_true (l : List ScEvent) : claimedBeforeDispatch true l = true := by
  induction l with
  | nil => rfl
  | cons x xs ih => simp [claimedBeforeDispatch, ih]

/-- The dispatch tail extends the trace it is given. -/
theorem dispatch_trace_append (K : ScCodes) (E : ScEnv) (s : schema_change_type)
    (pre : List ScEvent) :
    (dispatch_schema_change K E s pre).trace = pre ++ (dispatch_schema_change K E s []).trace ∧
    (dispatch_schema_change K E s pre).rc = (dispatch_schema_change K E s []).rc := by
  unfold dispatch_schema_change
  split_ifs <;> simp

/-- The monitor accepts the dispatch tail after a trace that holds a successful
claim and no dispatch. -/
theorem dispatch_claimedBeforeDispatch (K : ScCodes) (E : ScEnv) (s : schema_change_type)
    (pre : List ScEvent) (hq : ∀ e ∈ pre, e.isDispatch = false)
    (hc : pre.any (fun e => e.claimedSeed.isSome) = true) :
    claimedBeforeDispatch false (dispatch_schema_change K E s pre).trace = true := by
  rw [(dispatch_trace_append K E s pre).1, claimedBeforeDispatch_append,
    claimedBeforeDispatch_quiet pre hq, hc]
  simp [claimedBeforeDispatch_true]

/-- In every run of `start_schema_change` the migration body is dispatched only
after a claim of the running slot succeeded. -/
theorem start_claimedBeforeDispatch (K : ScCodes) (E : ScEnv) (s : schema_change_type) :
    claimedBeforeDispatch false (start_schema_change K E s).trace = true := by
  by_cases hm : E.master_is_me = true
  swap
  · simp [start_schema_change, hm, claimedBeforeDispatch, ScEvent.isDispatch,
      ScEvent.claimedSeed]
  by_cases hseed : s.resume ≠ 0 ∧ E.fetch_seed_rc ≠ 0
  · simp [start_schema_change, hm, hseed, claimedBeforeDispatch, ScEvent.isDispatch,
      ScEvent.claimedSeed]
  have hseed' : s.resume ≠ 0 → E.fetch_seed_rc = 0 := fun h => by
    by_contra h'
    exact hseed ⟨h, h'⟩
  by_cases hok : E.set_running_rc_first = 0
  · rw [start_first_claim_shape K E s hm hseed' hok]
    apply dispatch_claimedBeforeDispatch
    · intro e he
      by_cases hr : s.resume = 0 <;> simp [hr] at he <;> rcases he with h | h | h <;>
        subst h <;> rfl
    · by_cases hr : s.resume = 0 <;> simp [hr, ScEvent.claimedSeed]
  by_cases hterm : E.doing_upgrade 0 = false ∨ s.fulluprecs ≠ 0 ∨ s.partialuprecs ≠ 0
  · rw [start_conflict_shape K E s hm hseed' hok hterm]
    apply claimedBeforeDispatch_quiet
    intro e he
    simp only [List.mem_append, List.mem_singleton] at he
    rcases he with he | he
    · exact (claimFailTrace_facts E s).2.2.2 e he
    · subst he; rfl
  have hdu : E.doing_upgrade 0 = true := by
    by_contra h
    exact hterm (Or.inl (by simpa using h))
  have hfull : s.fulluprecs = 0 := by
    by_contra h
    exact hterm (Or.inr (Or.inl h))
  have hpart : s.partialuprecs = 0 := by
    by_contra h
    exact hterm (Or.inr (Or.inr h))
  obtain ⟨k, -, -, -, -, hshape⟩ := start_preempt_shape K E s hm hseed' hok hdu hfull hpart
  rw [hshape]
  have hq := (preemptTrace_facts E s k).2.2.2
  split_ifs with h3 h4
  · apply claimedBeforeDispatch_quiet
    intro e he
    simp only [List.mem_append, List.mem_cons, List.mem_singleton, List.not_mem_nil,
      or_false] at he
    rcases he with he | he | he
    · exact hq e he
    · subst he; rfl
    · subst he; rfl
  · apply claimedBeforeDispatch_quiet
    intro e he
    simp only [List.mem_append, List.mem_cons, List.mem_singleton, List.not_mem_nil,
      or_false] at he
    rcases he with he | he | he | he
    · exact hq e he
    · subst he; rfl
    · subst he; rfl
    · subst he; rfl
  · have h4' : E.set_running_rc_retry = 0 := by
      by_contra h
      exact h4 h
    apply dispatch_claimedBeforeDispatch
    · intro e he
      simp only [List.mem_append, List.mem_cons, List.mem_singleton, List.not_mem_nil,
        or_false] at he
      rcases he with he | he | he
      · exact hq e he
      · subst he; rfl
      · subst he; rfl
    · simp [h4', ScEvent.claimedSeed]

/-- No release and no successful claim happens up to the failed first claim. -/
theorem claimFailTrace_quiet (E : ScEnv) (s : schema_change_type)
    (hfail : E.set_running_rc_first ≠ 0) :
    (claimFailTrace E s).countP ScEvent.isRelease = 0 ∧
    (∀ seed, ScEvent.sc_set_running 1 seed 0 ∉ claimFailTrace E s) := by
  constructor
  · by_cases hr : s.resume = 0 <;>
      simp [claimFailTrace, hr, List.countP_cons, ScEvent.isRelease]
  · intro seed hmem
    by_cases hr : s.resume = 0 <;> simp [claimFailTrace, hr] at hmem <;>
      exact hfail hmem.2.symm

/-- No release and no successful claim happens through the end of the
cancellation wait. -/
theorem preemptTrace_quiet (E : ScEnv) (s : schema_change_type) (k : Nat)
    (hfail : E.set_running_rc_first ≠ 0) :
    (preemptTrace E s k).countP ScEvent.isRelease = 0 ∧
    (∀ seed, ScEvent.sc_set_running 1 seed 0 ∉ preemptTrace E s k) := by
  obtain ⟨h1, h2⟩ := claimFailTrace_quiet E s hfail
  constructor
  · simp [preemptTrace, List.countP_append, h1, List.countP_cons, ScEvent.isRelease,
      countP_pollTrace E.doing_upgrade ScEvent.isRelease k 1 rfl (fun _ => rfl)]
  · intro seed hmem
    simp only [preemptTrace, List.mem_append, List.mem_singleton] at hmem
    rcases hmem with ((h | h) | h) | h
    · exact h2 seed h
    · cases h
    · rcases mem_pollTrace _ _ _ _ h with h' | ⟨v, h'⟩ <;> cases h'
    · cases h

/-- What the dispatch tail does, by case: inline it returns the body's result;
on a worker it returns SC_ASYNC, or, when the worker cannot be started, frees the
request once, releases the running slot once and returns SC_ASYNC_FAILED. -/
theorem dispatch_facts (K : ScCodes) (E : ScEnv) (s : schema_change_type) :
    (s.nothrevent ≠ 0 →
      (dispatch_schema_change K E s []).rc = E.do_schema_change_thd_rc ∧
      ScEvent.do_schema_change_thd E.do_schema_change_thd_rc
        ∈ (dispatch_schema_change K E s []).trace) ∧
    (s.nothrevent = 0 → E.pthread_create_rc ≠ 0 →
      (dispatch_schema_change K E s []).rc = K.SC_ASYNC_FAILED ∧
      (dispatch_schema_change K E s []).trace.countP ScEvent.isRelease = 1 ∧
      (dispatch_schema_change K E s []).trace.count .free_schema_change_type = 1) ∧
    (s.nothrevent = 0 → E.pthread_create_rc = 0 →
      (dispatch_schema_change K E s []).rc = K.SC_ASYNC ∧
      (dispatch_schema_change K E s []).trace.countP ScEvent.isRelease = 0 ∧
      (dispatch_schema_change K E s []).trace.count .free_schema_change_type = 0) := by
  refine ⟨fun h => ?_, fun h hp => ?_, fun h hp => ?_⟩
  · simp [dispatch_schema_change, h]
  · cases h1 : E.master_is_me_later <;> by_cases h2 : s.resume = 0 <;>
      simp [dispatch_schema_change, h, hp, h1, h2, List.countP_cons, List.count_cons,
        ScEvent.isRelease]
  · cases h1 : E.master_is_me_later <;> by_cases h2 : s.resume = 0 <;>
      simp [dispatch_schema_change, h, hp, h1, h2, List.countP_cons, List.count_cons,
        ScEvent.isRelease]

/-- The dispatch tail makes no claim attempt. -/
theorem dispatch_no_claim (K : ScCodes) (E : ScEnv) (s : schema_change_type) :
    (dispatch_schema_change K E s []).trace.countP ScEvent.isClaim = 0 := by
  cases h1 : E.master_is_me_later <;> by_cases h2 : s.resume = 0 <;>
    by_cases h3 : s.nothrevent = 0 <;> by_cases h4 : E.pthread_create_rc = 0 <;>
    simp [dispatch_schema_change, h1, h2, h3, h4, List.countP_cons, ScEvent.isClaim]

/-- The paths of `start_schema_change`: either it returns before any claim
succeeded (not master, seed fetch failed, or cannot claim) having dispatched
nothing, or it reaches the dispatch tail after a trace that holds a successful
claim, no release and no free. -/
theorem start_paths (K : ScCodes) (E : ScEnv) (s : schema_change_type) :
    ((∀ seed, ScEvent.sc_set_running 1 seed 0 ∉ (start_schema_change K E s).trace) ∧
      ((start_schema_change K E s).rc = K.SC_NOT_MASTER ∨
        (start_schema_change K E s).rc = K.SC_CANT_SET_RUNNING ∨
        (s.resume ≠ 0 ∧ E.fetch_seed_rc ≠ 0 ∧
          (start_schema_change K E s).rc = E.fetch_seed_rc))) ∨
    (∃ pre, start_schema_change K E s = dispatch_schema_change K E s pre ∧
      pre.count .free_schema_change_type = 0 ∧ pre.countP ScEvent.isRelease = 0 ∧
      ∃ seed, ScEvent.sc_set_running 1 seed 0 ∈ pre) := by
  by_cases hm : E.master_is_me = true
  swap
  · left
    simp [start_schema_change, hm]
  by_cases hseed : s.resume ≠ 0 ∧ E.fetch_seed_rc ≠ 0
  · left
    simp [start_schema_change, hm, hseed]
  have hseed' : s.resume ≠ 0 → E.fetch_seed_rc = 0 := fun h => by
    by_contra h'
    exact hseed ⟨h, h'⟩
  by_cases hok : E.set_running_rc_first = 0
  · right
    refine ⟨_, start_first_claim_shape K E s hm hseed' hok, ?_, ?_, acquired_seed E s, ?_⟩
    · by_cases hr : s.resume = 0 <;> simp [hr, List.count_cons]
    · by_cases hr : s.resume = 0 <;> simp [hr, List.countP_cons, ScEvent.isRelease]
    · simp
  by_cases hterm : E.doing_upgrade 0 = false ∨ s.fulluprecs ≠ 0 ∨ s.partialuprecs ≠ 0
  · left
    rw [start_conflict_shape K E s hm hseed' hok hterm]
    refine ⟨fun seed hmem => ?_, Or.inr (Or.inl rfl)⟩
    simp only [List.mem_append, List.mem_singleton] at hmem
    rcases hmem with h | h
    · exact (claimFailTrace_quiet E s hok).2 seed h
    · cases h
  have hdu : E.doing_upgrade 0 = true := by
    by_contra h
    exact hterm (Or.inl (by simpa using h))
  have hfull : s.fulluprecs = 0 := by
    by_contra h
    exact hterm (Or.inr (Or.inl h))
  have hpart : s.partialuprecs = 0 := by
    by_contra h
    exact hterm (Or.inr (Or.inr h))
  obtain ⟨k, -, -, -, -, hshape⟩ := start_preempt_shape K E s hm hseed' hok hdu hfull hpart
  have hq := preemptTrace_quiet E s k hok
  have hf := (preemptTrace_facts E s k).1
  by_cases h3 : E.doing_upgrade (k + 1) = true
  · left
    rw [hshape, if_pos h3]
    refine ⟨fun seed hmem => ?_, Or.inr (Or.inl rfl)⟩
    simp only [List.mem_append, List.mem_cons, List.mem_singleton, List.not_mem_nil,
      or_false] at hmem
    rcases hmem with h | h | h
    · exact hq.2 seed h
    · cases h
    · cases h
  by_cases h4 : E.set_running_rc_retry = 0
  · right
    refine ⟨_, by rw [hshape, if_neg h3, if_neg (not_not.mpr h4)], ?_, ?_, E.genid_retry, ?_⟩
    · simp [List.count_append, hf, List.count_cons]
    · simp [List.countP_append, hq.1, List.countP_cons, ScEvent.isRelease]
    · simp [h4]
  · left
    rw [hshape, if_neg h3, if_pos h4]
    refine ⟨fun seed hmem => ?_, Or.inr (Or.inl rfl)⟩
    simp only [List.mem_append, List.mem_cons, List.mem_singleton, List.not_mem_nil,
      or_false] at hmem
    rcases hmem with h | h | h | h
    · exact hq.2 seed h
    · cases h
    · injection h with _ _ h'
      exact h4 h'.symm
    · cases h

/-- C6: when the calling node is not the master, `start_schema_change` returns
SC_NOT_MASTER, frees the request exactly once, never calls `sc_set_running`
(neither claim nor release), persists no plan marker and dispatches nothing. -/
theorem start_schema_change_not_master (K : ScCodes) (E : ScEnv) (s : schema_change_type)
    (h : E.master_is_me = false) :
    (start_schema_change K E s).rc = K.SC_NOT_MASTER ∧
    (start_schema_change K E s).trace.count .free_schema_change_type = 1 ∧
    (∀ running seed rc,
      ScEvent.sc_set_running running seed rc ∉ (start_schema_change K E s).trace) ∧
    (∀ seed rc,
      ScEvent.bdb_set_disable_plan_genid seed rc ∉ (start_schema_change K E s).trace) ∧
    (∀ e ∈ (start_schema_change K E s).trace, e.isDispatch = false) := by
  simp [start_schema_change, h, List.count_cons, ScEvent.isDispatch]

/-- Witness for C6: the sample environment on a node that is not the master,
with a synchronous request. -/
theorem start_schema_change_not_master_witness :
    replicantEnv.master_is_me = false ∧
    ((start_schema_change sampleCodes replicantEnv { nothrevent := 1 }).rc = 8 ∧
      (start_schema_change sampleCodes replicantEnv { nothrevent := 1 }).trace.count
        .free_schema_change_type = 1 ∧
      (∀ running seed rc, ScEvent.sc_set_running running seed rc ∉
        (start_schema_change sampleCodes replicantEnv { nothrevent := 1 }).trace) ∧
      (∀ seed rc, ScEvent.bdb_set_disable_plan_genid seed rc ∉
        (start_schema_change sampleCodes replicantEnv { nothrevent := 1 }).trace) ∧
      (∀ e ∈ (start_schema_change sampleCodes replicantEnv { nothrevent := 1 }).trace,
        e.isDispatch = false)) :=
  ⟨rfl, start_schema_change_not_master sampleCodes replicantEnv { nothrevent := 1 } rfl⟩

/-- C7: claim-conflict policy. On the master, with the seed acquired, when the
first claim of the running slot fails: (a) if `doing_upgrade` is clear, or the
request is a full or partial record upgrade, the call returns
SC_CANT_SET_RUNNING after one claim attempt, without the abort signal, having
freed the request once; (b) otherwise it sets the abort signal and makes `k`
polls, 1 ≤ k ≤ 10, each a one-second sleep followed by a read of
`doing_upgrade`, stopping at the first poll that sees the flag cleared; if the
check after the wait still sees the upgrade it returns SC_CANT_SET_RUNNING
(request freed once, no second claim), and else it retries the claim exactly
once, returning SC_CANT_SET_RUNNING (request freed once) if the retry fails and
going on to dispatch if it succeeds; (c) every dispatch event of the trace is
preceded by a successful claim. -/
theorem claim_conflict_policy (K : ScCodes) (E : ScEnv) (s : schema_change_type)
    (hm : E.master_is_me = true) (hseed : s.resume ≠ 0 → E.fetch_seed_rc = 0)
    (hfail : E.set_running_rc_first ≠ 0) :
    (E.doing_upgrade 0 = false ∨ s.fulluprecs ≠ 0 ∨ s.partialuprecs ≠ 0 →
      start_schema_change K E s =
        ⟨K.SC_CANT_SET_RUNNING, claimFailTrace E s ++ [.free_schema_change_type]⟩ ∧
      ScEvent.set_gbl_sc_abort ∉ (start_schema_change K E s).trace ∧
      (start_schema_change K E s).trace.countP ScEvent.isClaim = 1 ∧
      (start_schema_change K E s).trace.count .free_schema_change_type = 1) ∧
    (E.doing_upgrade 0 = true ∧ s.fulluprecs = 0 ∧ s.partialuprecs = 0 →
      ScEvent.set_gbl_sc_abort ∈ (start_schema_change K E s).trace ∧
      ∃ k, 1 ≤ k ∧ k ≤ 10 ∧ (∀ i, 1 ≤ i → i < k → E.doing_upgrade i = true) ∧
        (k < 10 → E.doing_upgrade k = false) ∧
        (E.doing_upgrade (k + 1) = true →
          start_schema_change K E s =
            ⟨K.SC_CANT_SET_RUNNING,
              preemptTrace E s k ++ [.sc_errf, .free_schema_change_type]⟩ ∧
          (start_schema_change K E s).trace.countP ScEvent.isClaim = 1 ∧
          (start_schema_change K E s).trace.count .free_schema_change_type = 1) ∧
        (E.doing_upgrade (k + 1) = false → E.set_running_rc_retry ≠ 0 →
          start_schema_change K E s =
            ⟨K.SC_CANT_SET_RUNNING,
              preemptTrace E s k ++ [.get_genid E.genid_retry,
                .sc_set_running 1 E.genid_retry E.set_running_rc_retry,
                .free_schema_change_type]⟩ ∧
          (start_schema_change K E s).trace.countP ScEvent.isClaim = 2 ∧
          (start_schema_change K E s).trace.count .free_schema_change_type = 1) ∧
        (E.doing_upgrade (k + 1) = false → E.set_running_rc_retry = 0 →
          start_schema_change K E s =
            dispatch_schema_change K E s
              (preemptTrace E s k ++ [.get_genid E.genid_retry,
                .sc_set_running 1 E.genid_retry 0]) ∧
          (start_schema_change K E s).trace.countP ScEvent.isClaim = 2)) ∧
    (∀ pre e post, (start_schema_change K E s).trace = pre ++ e :: post →
      e.isDispatch = true → ∃ seed, ScEvent.sc_set_running 1 seed 0 ∈ pre) := by
  refine ⟨fun hterm => ?_, fun hpre => ?_, fun pre e post ht hd => ?_⟩
  · obtain ⟨h1, h2, h3, -⟩ := claimFailTrace_facts E s
    rw [start_conflict_shape K E s hm hseed hfail hterm]
    refine ⟨rfl, ?_, ?_, ?_⟩
    · simp [h3]
    · simp [List.countP_append, h2, List.countP_cons, ScEvent.isClaim]
    · simp [List.count_append, h1]
  · obtain ⟨hdu, hfull, hpart⟩ := hpre
    obtain ⟨k, hk1, hk10, hall, hlast, hshape⟩ :=
      start_preempt_shape K E s hm hseed hfail hdu hfull hpart
    obtain ⟨h1, h2, h3, -⟩ := preemptTrace_facts E s k
    constructor
    · rw [hshape]
      split_ifs
      · simp [h3]
      · simp [h3]
      · rw [(dispatch_trace_append K E s _).1]
        simp [h3]
    · refine ⟨k, hk1, hk10, hall, hlast, fun h => ?_, fun h h' => ?_, fun h h' => ?_⟩
      · rw [hshape, if_pos h]
        refine ⟨rfl, ?_, ?_⟩
        · simp [List.countP_append, h2, List.countP_cons, ScEvent.isClaim]
        · simp [List.count_append, h1, List.count_cons]
      · have hn : ¬ E.doing_upgrade (k + 1) = true := by simp [h]
        rw [hshape, if_neg hn, if_pos h']
        refine ⟨rfl, ?_, ?_⟩
        · simp [List.countP_append, h2, List.countP_cons, ScEvent.isClaim]
        · simp [List.count_append, h1, List.count_cons]
      · have hn : ¬ E.doing_upgrade (k + 1) = true := by simp [h]
        rw [hshape, if_neg hn, if_neg (not_not.mpr h'), h']
        refine ⟨rfl, ?_⟩
        rw [(dispatch_trace_append K E s _).1]
        simp [List.countP_append, h2, List.countP_cons, ScEvent.isClaim, dispatch_no_claim]
  · have hmon := start_claimedBeforeDispatch K E s
    rw [ht] at hmon
    rcases claimedBeforeDispatch_sound pre false e post hmon hd with h | h
    · cases h
    · exact h

/-- Witness for C7: in the sample environment the first claim fails while an
upgrade runs; a plain request preempts it (abort signal, polls, retry), and a
full record upgrade request is turned away at once with SC_CANT_SET_RUNNING
(-99). -/
theorem claim_conflict_policy_witness :
    sampleEnv.master_is_me = true ∧ sampleEnv.set_running_rc_first ≠ 0 ∧
    (ScEvent.set_gbl_sc_abort ∈ (start_schema_change sampleCodes sampleEnv {}).trace ∧
      ∃ k, 1 ≤ k ∧ k ≤ 10 ∧ (∀ i, 1 ≤ i → i < k → sampleEnv.doing_upgrade i = true) ∧
        (k < 10 → sampleEnv.doing_upgrade k = false) ∧
        (sampleEnv.doing_upgrade (k + 1) = true →
          start_schema_change sampleCodes sampleEnv {} =
            ⟨sampleCodes.SC_CANT_SET_RUNNING,
              preemptTrace sampleEnv {} k ++ [.sc_errf, .free_schema_change_type]⟩ ∧
          (start_schema_change sampleCodes sampleEnv {}).trace.countP ScEvent.isClaim = 1 ∧
          (start_schema_change sampleCodes sampleEnv {}).trace.count
            .free_schema_change_type = 1) ∧
        (sampleEnv.doing_upgrade (k + 1) = false → sampleEnv.set_running_rc_retry ≠ 0 →
          start_schema_change sampleCodes sampleEnv {} =
            ⟨sampleCodes.SC_CANT_SET_RUNNING,
              preemptTrace sampleEnv {} k ++ [.get_genid sampleEnv.genid_retry,
                .sc_set_running 1 sampleEnv.genid_retry sampleEnv.set_running_rc_retry,
                .free_schema_change_type]⟩ ∧
          (start_schema_change sampleCodes sampleEnv {}).trace.countP ScEvent.isClaim = 2 ∧
          (start_schema_change sampleCodes sampleEnv {}).trace.count
            .free_schema_change_type = 1) ∧
        (sampleEnv.doing_upgrade (k + 1) = false → sampleEnv.set_running_rc_retry = 0 →
          start_schema_change sampleCodes sampleEnv {} =
            dispatch_schema_change sampleCodes sampleEnv {}
              (preemptTrace sampleEnv {} k ++ [.get_genid sampleEnv.genid_retry,
                .sc_set_running 1 sampleEnv.genid_retry 0]) ∧
          (start_schema_change sampleCodes sampleEnv {}).trace.countP ScEvent.isClaim = 2)) ∧
    (start_schema_change sampleCodes sampleEnv { fulluprecs := 1 } =
        ⟨-99, claimFailTrace sampleEnv { fulluprecs := 1 } ++ [.free_schema_change_type]⟩ ∧
      ScEvent.set_gbl_sc_abort ∉
        (start_schema_change sampleCodes sampleEnv { fulluprecs := 1 }).trace ∧
      (start_schema_change sampleCodes sampleEnv { fulluprecs := 1 }).trace.countP
        ScEvent.isClaim = 1 ∧
      (start_schema_change sampleCodes sampleEnv { fulluprecs := 1 }).trace.count
        .free_schema_change_type = 1) :=
  ⟨rfl, by decide,
    (claim_conflict_policy sampleCodes sampleEnv {} rfl (by decide) (by decide)).2.1
      ⟨rfl, rfl, rfl⟩,
    (claim_conflict_policy sampleCodes sampleEnv { fulluprecs := 1 } rfl (by decide)
      (by decide)).1 (Or.inr (Or.inl (by decide)))⟩

/-- C8: worker-start rollback. For an asynchronous request (`nothrevent` unset):
when `start_schema_change` has claimed the running slot and the worker cannot be
started it returns SC_ASYNC_FAILED, having released the slot exactly once and
freed the request exactly once; when the worker starts it returns SC_ASYNC and
does not release the slot. `finalize_schema_change` behaves the same way. -/
theorem worker_start_rollback (K : ScCodes) (E : ScEnv) (s : schema_change_type)
    (hasync : s.nothrevent = 0) :
    ((∃ seed, ScEvent.sc_set_running 1 seed 0 ∈ (start_schema_change K E s).trace) →
      (E.pthread_create_rc ≠ 0 →
        (start_schema_change K E s).rc = K.SC_ASYNC_FAILED ∧
        (start_schema_change K E s).trace.countP ScEvent.isRelease = 1 ∧
        (start_schema_change K E s).trace.count .free_schema_change_type = 1) ∧
      (E.pthread_create_rc = 0 →
        (start_schema_change K E s).rc = K.SC_ASYNC ∧
        (start_schema_change K E s).trace.countP ScEvent.isRelease = 0)) ∧
    ((E.pthread_create_rc ≠ 0 →
        (finalize_schema_change K E s).rc = K.SC_ASYNC_FAILED ∧
        (finalize_schema_change K E s).trace.countP ScEvent.isRelease = 1 ∧
        (finalize_schema_change K E s).trace.count .free_schema_change_type = 1) ∧
      (E.pthread_create_rc = 0 →
        (finalize_schema_change K E s).rc = K.SC_ASYNC ∧
        (finalize_schema_change K E s).trace.countP ScEvent.isRelease = 0)) := by
  constructor
  · rintro ⟨seed, hclaim⟩
    rcases start_paths K E s with ⟨hno, -⟩ | ⟨pre, hshape, hfree, hrel, -⟩
    · exact absurd hclaim (hno seed)
    · obtain ⟨-, hfail, hok⟩ := dispatch_facts K E s
      obtain ⟨htr, hrc⟩ := dispatch_trace_append K E s pre
      rw [hshape, htr, hrc]
      constructor
      · intro hp
        obtain ⟨h1, h2, h3⟩ := hfail hasync hp
        exact ⟨h1, by simp [List.countP_append, hrel, h2], by simp [List.count_append, hfree, h3]⟩
      · intro hp
        obtain ⟨h1, h2, -⟩ := hok hasync hp
        exact ⟨h1, by simp [List.countP_append, hrel, h2]⟩
  · constructor
    · intro hp
      simp [finalize_schema_change, hasync, hp, List.countP_cons, List.count_cons,
        ScEvent.isRelease]
    · intro hp
      simp [finalize_schema_change, hasync, hp, List.countP_cons, ScEvent.isRelease]

/-- Witness for C8: an asynchronous request in the sample environment when
`pthread_create` fails with 11; the retry claim had succeeded, and both entry
points return SC_ASYNC_FAILED (7) after one release and one free. -/
theorem worker_start_rollback_witness :
    ({} : schema_change_type).nothrevent = 0 ∧
    (∃ seed, ScEvent.sc_set_running 1 seed 0 ∈
      (start_schema_change sampleCodes noThreadEnv {}).trace) ∧
    ((start_schema_change sampleCodes noThreadEnv {}).rc = 7 ∧
      (start_schema_change sampleCodes noThreadEnv {}).trace.countP ScEvent.isRelease = 1 ∧
      (start_schema_change sampleCodes noThreadEnv {}).trace.count
        .free_schema_change_type = 1) ∧
    ((finalize_schema_change sampleCodes noThreadEnv {}).rc = 7 ∧
      (finalize_schema_change sampleCodes noThreadEnv {}).trace.countP ScEvent.isRelease = 1 ∧
      (finalize_schema_change sampleCodes noThreadEnv {}).trace.count
        .free_schema_change_type = 1) :=
  ⟨rfl, ⟨noThreadEnv.genid_retry, by decide⟩,
    ((worker_start_rollback sampleCodes noThreadEnv {} rfl).1
      ⟨noThreadEnv.genid_retry, by decide⟩).1 (by decide),
    (worker_start_rollback sampleCodes noThreadEnv {} rfl).2.1 (by decide)⟩

/-- C10 fails on the retry path: in the sample environment the first claim is
made with the acquired seed and fails, and the only successful claim is the
retry, made with the fresh generator id `genid_retry`. For a fresh request the
acquired seed is the generator id tagged with the node hash
(0xdeadbeef00000001); for a resumed request it is the persisted seed
(0x1234567800000042); the retry claims with 0x0000000a00000002 in both cases. -/
theorem retry_claim_drops_acquired_seed :
    (acquired_seed sampleEnv {} = 0xdeadbeef00000001 ∧
      (start_schema_change sampleCodes sampleEnv {}).trace.filterMap ScEvent.claimedSeed
        = [0x0000000a00000002]) ∧
    (acquired_seed sampleEnv { resume := 1 } = 0x1234567800000042 ∧
      (start_schema_change sampleCodes sampleEnv { resume := 1 }).trace.filterMap
        ScEvent.claimedSeed = [0x0000000a00000002]) ∧
    (start_schema_change sampleCodes freeSlotEnv {}).trace.filterMap ScEvent.claimedSeed
      = [0xdeadbeef00000001] := by
  decide

/-! ## Theorems: interceptor guards -/

/-- Every cursor read of `live_sc_post_add` is at an in-range index. -/
theorem cursorReads_post_add (G : LiveGlobals) (iq : ireq) (genid : Nat) :
    ∀ i ∈ cursorReads (live_sc_post_add G iq genid), 0 ≤ i ∧ i < G.gbl_dtastripe := by
  cases hl : G.sc_live <;> cases hf : iq.usedb.sc_from_is_self <;>
    by_cases hr : (G.get_dtafile_from_genid genid < 0 ∨
      G.get_dtafile_from_genid genid ≥ G.gbl_dtastripe) <;>
    by_cases hz : iq.usedb.sc_genids (G.get_dtafile_from_genid genid) = 0 <;>
    by_cases hc : iq.usedb.sc_genids (G.get_dtafile_from_genid genid) < genid <;>
    simp [live_sc_post_add, cursorReads, hl, hf, hr, hz, hc, is_genid_right_of_stripe_pointer]
  all_goals
    simp only [not_or, not_lt, ge_iff_le, not_le] at hr
    exact hr

/-- Every cursor read of `live_sc_post_delete` is at an in-range index. -/
theorem cursorReads_post_delete (G : LiveGlobals) (iq : ireq) (genid : Nat) :
    ∀ i ∈ cursorReads (live_sc_post_delete G iq genid), 0 ≤ i ∧ i < G.gbl_dtastripe := by
  cases hl : G.sc_live <;> cases hf : iq.usedb.sc_from_is_self <;>
    by_cases hr : (G.get_dtafile_from_genid genid < 0 ∨
      G.get_dtafile_from_genid genid ≥ G.gbl_dtastripe) <;>
    by_cases hz : iq.usedb.sc_genids (G.get_dtafile_from_genid genid) = 0 <;>
    by_cases hc : iq.usedb.sc_genids (G.get_dtafile_from_genid genid) < genid <;>
    simp [live_sc_post_delete, cursorReads, hl, hf, hr, hz, hc, is_genid_right_of_stripe_pointer]
  all_goals
    simp only [not_or, not_lt, ge_iff_le, not_le] at hr
    exact hr

/-- Every cursor read of `live_sc_post_update`, the reads of the debug prints
included, is at an in-range index. -/
theorem cursorReads_post_update (G : LiveGlobals) (iq : ireq) (oldgenid newgenid : Nat)
    (updCols : List Int) :
    ∀ i ∈ cursorReads (live_sc_post_update G iq oldgenid newgenid updCols),
      0 ≤ i ∧ i < G.gbl_dtastripe := by
  cases hl : G.sc_live <;> cases hf : iq.usedb.sc_from_is_self <;>
    by_cases hr : (G.get_dtafile_from_genid oldgenid < 0 ∨
      G.get_dtafile_from_genid oldgenid ≥ G.gbl_dtastripe) <;>
    by_cases hz : iq.usedb.sc_genids (G.get_dtafile_from_genid oldgenid) = 0 <;>
    by_cases ho : iq.usedb.sc_genids (G.get_dtafile_from_genid oldgenid) < oldgenid <;>
    by_cases hn : iq.usedb.sc_genids (G.get_dtafile_from_genid oldgenid) < newgenid <;>
    cases hd : iq.debug <;>
    simp [live_sc_post_update, cursorReads, dbg, dbg_case, hl, hf, hr, hz, ho, hn, hd,
      is_genid_right_of_stripe_pointer]
  all_goals
    simp only [not_or, not_lt, ge_iff_le, not_le] at hr
    exact hr

/-- An interceptor whose guard fails returns 0 with an empty trace or with the
error log only. -/
theorem guard_fails_noop (G : LiveGlobals) (iq : ireq) (genid newgenid : Nat)
    (updCols : List Int)
    (h : G.sc_live = false ∨ iq.usedb.sc_from_is_self = false ∨
      G.get_dtafile_from_genid genid < 0 ∨
      G.get_dtafile_from_genid genid ≥ G.gbl_dtastripe) :
    (live_sc_post_add G iq genid = ⟨0, []⟩ ∨
      live_sc_post_add G iq genid = ⟨0, [.logmsg_error]⟩) ∧
    (live_sc_post_delete G iq genid = ⟨0, []⟩ ∨
      live_sc_post_delete G iq genid = ⟨0, [.logmsg_error]⟩) ∧
    (live_sc_post_update G iq genid newgenid updCols = ⟨0, []⟩ ∨
      live_sc_post_update G iq genid newgenid updCols = ⟨0, [.logmsg_error]⟩) := by
  by_cases hg : G.sc_live = true ∧ iq.usedb.sc_from_is_self = true
  · obtain ⟨hl, hf⟩ := hg
    have hr : G.get_dtafile_from_genid genid < 0 ∨
        G.get_dtafile_from_genid genid ≥ G.gbl_dtastripe := by
      rcases h with h | h | h | h
      · simp [hl] at h
      · simp [hf] at h
      · exact Or.inl h
      · exact Or.inr h
    simp [live_sc_post_add, live_sc_post_delete, live_sc_post_update, hl, hf, hr]
  · cases hl : G.sc_live <;> cases hf : iq.usedb.sc_from_is_self <;>
      simp [live_sc_post_add, live_sc_post_delete, live_sc_post_update, hl, hf] at hg ⊢

/-- C17: in `live_sc_post_add`, `live_sc_post_delete` and `live_sc_post_update`,
when the live flag is unset, or the table is not the origin of a migration, or
the stripe of the genid (the old genid for updates) is negative or at least
`gbl_dtastripe`, the function returns 0 and mirrors nothing; and in every call
the cursor array is read only at indices i with 0 ≤ i < `gbl_dtastripe`. -/
theorem interceptor_guards (G : LiveGlobals) (iq : ireq) (genid newgenid : Nat)
    (updCols : List Int) :
    (G.sc_live = false ∨ iq.usedb.sc_from_is_self = false ∨
        G.get_dtafile_from_genid genid < 0 ∨
        G.get_dtafile_from_genid genid ≥ G.gbl_dtastripe →
      ((live_sc_post_add G iq genid).rc = 0 ∧ mirrored (live_sc_post_add G iq genid) = [] ∧
        cursorReads (live_sc_post_add G iq genid) = []) ∧
      ((live_sc_post_delete G iq genid).rc = 0 ∧
        mirrored (live_sc_post_delete G iq genid) = [] ∧
        cursorReads (live_sc_post_delete G iq genid) = []) ∧
      ((live_sc_post_update G iq genid newgenid updCols).rc = 0 ∧
        mirrored (live_sc_post_update G iq genid newgenid updCols) = [] ∧
        cursorReads (live_sc_post_update G iq genid newgenid updCols) = [])) ∧
    (∀ i ∈ cursorReads (live_sc_post_add G iq genid), 0 ≤ i ∧ i < G.gbl_dtastripe) ∧
    (∀ i ∈ cursorReads (live_sc_post_delete G iq genid), 0 ≤ i ∧ i < G.gbl_dtastripe) ∧
    (∀ i ∈ cursorReads (live_sc_post_update G iq genid newgenid updCols),
      0 ≤ i ∧ i < G.gbl_dtastripe) := by
  refine ⟨fun h => ?_, cursorReads_post_add G iq genid, cursorReads_post_delete G iq genid,
    cursorReads_post_update G iq genid newgenid updCols⟩
  obtain ⟨ha, hd, hu⟩ := guard_fails_noop G iq genid newgenid updCols h
  refine ⟨?_, ?_, ?_⟩
  · rcases ha with ha | ha <;> rw [ha] <;> simp [mirrored, cursorReads, LiveEvent.isMirror]
  · rcases hd with hd | hd <;> rw [hd] <;> simp [mirrored, cursorReads, LiveEvent.isMirror]
  · rcases hu with hu | hu <;> rw [hu] <;> simp [mirrored, cursorReads, LiveEvent.isMirror]

/-- Witness for C17: with four stripes and a locator that answers 9, the three
interceptors return 0, mirror nothing and read no cursor. -/
theorem interceptor_guards_witness :
    strayGlobals.get_dtafile_from_genid 1001 ≥ strayGlobals.gbl_dtastripe ∧
    ((live_sc_post_add strayGlobals (linkedReq 1000 true) 1001).rc = 0 ∧
      mirrored (live_sc_post_add strayGlobals (linkedReq 1000 true) 1001) = [] ∧
      cursorReads (live_sc_post_add strayGlobals (linkedReq 1000 true) 1001) = []) ∧
    ((live_sc_post_delete strayGlobals (linkedReq 1000 true) 1001).rc = 0 ∧
      mirrored (live_sc_post_delete strayGlobals (linkedReq 1000 true) 1001) = [] ∧
      cursorReads (live_sc_post_delete strayGlobals (linkedReq 1000 true) 1001) = []) ∧
    ((live_sc_post_update strayGlobals (linkedReq 1000 true) 1001 999 [1]).rc = 0 ∧
      mirrored (live_sc_post_update strayGlobals (linkedReq 1000 true) 1001 999 [1]) = [] ∧
      cursorReads (live_sc_post_update strayGlobals (linkedReq 1000 true) 1001 999 [1]) = []) :=
  ⟨by decide,
    (interceptor_guards strayGlobals (linkedReq 1000 true) 1001 999 [1]).1
      (Or.inr (Or.inr (Or.inr (by decide))))⟩

/-! ## Theorems: recovery bootstrap -/

/-- Marking a header change leaves the storage options of the request alone. -/
theorem mark_header_change_fields (s : schema_change_type) (odh : Int) :
    (mark_header_change s odh).headers = s.headers ∧
    (mark_header_change s odh).ip_updates = s.ip_updates ∧
    (mark_header_change s odh).instant_sc = s.instant_sc ∧
    (mark_header_change s odh).dbnum = s.dbnum := by
  unfold mark_header_change
  split_ifs <;> exact ⟨rfl, rfl, rfl, rfl⟩

/-- The shadow table object `add_table_for_recovery` leaves, when it leaves
one, carries the settings of lines 598-603. -/
theorem recovery_newdb_eq (E : SchemaEnv) (s : schema_change_type) (nd : db)
    (h : (add_table_for_recovery E s).newdb = some nd) :
    ∃ (d : db) (dbnum : Int), nd = shadow_settings E (mark_header_change s d.odh) dbnum := by
  cases hd : E.getdbbyname with
  | none => simp [add_table_for_recovery, hd] at h
  | some d =>
    refine ⟨d, ?_⟩
    simp only [add_table_for_recovery, hd] at h
    split_ifs at h <;> cases h <;> exact ⟨_, rfl⟩

/-- C12 (amended): whenever `add_table_for_recovery` constructs the shadow
table, the shadow's on-disk-header setting equals the request's `headers`, its
in-place-update flag is set exactly when both `headers` and `ip_updates` are
set, and its instant-schema-change flag exactly when both `headers` and
`instant_sc` are set; so with on-disk headers enabled each flag is set exactly
when the request asks for it. -/
theorem recovery_storage_flags (E : SchemaEnv) (s : schema_change_type) (nd : db)
    (h : (add_table_for_recovery E s).newdb = some nd) :
    nd.odh = s.headers ∧
    (nd.inplace_updates ≠ 0 ↔ s.headers ≠ 0 ∧ s.ip_updates ≠ 0) ∧
    (nd.instant_schema_change ≠ 0 ↔ s.headers ≠ 0 ∧ s.instant_sc ≠ 0) ∧
    (s.headers ≠ 0 →
      (nd.inplace_updates ≠ 0 ↔ s.ip_updates ≠ 0) ∧
      (nd.instant_schema_change ≠ 0 ↔ s.instant_sc ≠ 0)) := by
  have key : nd.odh = s.headers ∧ nd.inplace_updates = c_and s.headers s.ip_updates ∧
      nd.instant_schema_change = c_and s.headers s.instant_sc := by
    obtain ⟨d, dbnum, hnd⟩ := recovery_newdb_eq E s nd h
    subst hnd
    simp only [shadow_settings, mark_header_change_fields]
    exact ⟨trivial, trivial, trivial⟩
  obtain ⟨h1, h2, h3⟩ := key
  have c1 : ∀ a b : Int, c_and a b ≠ 0 ↔ a ≠ 0 ∧ b ≠ 0 := by
    intro a b
    unfold c_and
    split_ifs with hab
    · simp [hab]
    · simp only [ne_eq, not_true_eq_false, false_iff]
      exact hab
  refine ⟨h1, by rw [h2]; exact c1 _ _, by rw [h3]; exact c1 _ _, fun hh => ?_⟩
  rw [h2, h3, c1, c1]
  exact ⟨⟨fun x => x.2, fun x => ⟨hh, x⟩⟩, ⟨fun x => x.2, fun x => ⟨hh, x⟩⟩⟩

/-- Witness for C12 (amended): the request `headersReq` (headers 1, in-place
updates asked, instant schema change not asked) on the sample collaborators;
the shadow has headers 1, in-place updates set, instant schema change clear. -/
theorem recovery_storage_flags_witness :
    (add_table_for_recovery sampleSchemaEnv headersReq).newdb
      = some (shadow_settings sampleSchemaEnv headersReq 7) ∧
    (shadow_settings sampleSchemaEnv headersReq 7).odh = 1 ∧
    (shadow_settings sampleSchemaEnv headersReq 7).inplace_updates = 1 ∧
    (shadow_settings sampleSchemaEnv headersReq 7).instant_schema_change = 0 ∧
    ((shadow_settings sampleSchemaEnv headersReq 7).odh = headersReq.headers ∧
      ((shadow_settings sampleSchemaEnv headersReq 7).inplace_updates ≠ 0 ↔
        headersReq.headers ≠ 0 ∧ headersReq.ip_updates ≠ 0) ∧
      ((shadow_settings sampleSchemaEnv headersReq 7).instant_schema_change ≠ 0 ↔
        headersReq.headers ≠ 0 ∧ headersReq.instant_sc ≠ 0) ∧
      (headersReq.headers ≠ 0 →
        ((shadow_settings sampleSchemaEnv headersReq 7).inplace_updates ≠ 0 ↔
          headersReq.ip_updates ≠ 0) ∧
        ((shadow_settings sampleSchemaEnv headersReq 7).instant_schema_change ≠ 0 ↔
          headersReq.instant_sc ≠ 0))) :=
  ⟨rfl, rfl, rfl, rfl,
    recovery_storage_flags sampleSchemaEnv headersReq
      (shadow_settings sampleSchemaEnv headersReq 7) rfl⟩

/-- C12 as written fails: for the request `noHeadersReq` (headers 0, in-place
updates and instant schema change both asked) the shadow table is constructed
with both flags clear. -/
theorem recovery_flags_dropped_without_headers :
    (add_table_for_recovery sampleSchemaEnv noHeadersReq).newdb
      = some (shadow_settings sampleSchemaEnv
          (mark_header_change noHeadersReq 1) 7) ∧
    noHeadersReq.ip_updates = 1 ∧ noHeadersReq.instant_sc = 1 ∧
    (shadow_settings sampleSchemaEnv (mark_header_change noHeadersReq 1) 7).inplace_updates
      = 0 ∧
    (shadow_settings sampleSchemaEnv
      (mark_header_change noHeadersReq 1) 7).instant_schema_change = 0 ∧
    ¬ flags_preserved_as_specified sampleSchemaEnv noHeadersReq := by
  refine ⟨rfl, rfl, rfl, rfl, rfl, fun h => ?_⟩
  have h1 := (h (shadow_settings sampleSchemaEnv (mark_header_change noHeadersReq 1) 7) rfl).2.1
  exact (h1.mpr (by decide)) rfl

/-- One iteration of the loop of `add_schema_change_tables`. -/
theorem resume_scan_cons (E : ResumeEnv) (t : TableMeta) (rest : List TableMeta) :
    resume_scan E (t :: rest) =
      if t.get_in_schema_change_rc ≠ 0 ∨ t.bdberr ≠ E.BDBERR_NOERROR then
        ⟨(resume_scan E rest).outcome,
          .bdb_get_in_schema_change t.dbname t.get_in_schema_change_rc t.bdberr ::
            .logmsg_error :: (resume_scan E rest).trace⟩
      else if t.has_packed_sc_data = true then
        ⟨(resume_table E t).outcome,
          .bdb_get_in_schema_change t.dbname t.get_in_schema_change_rc t.bdberr ::
            (resume_table E t).trace⟩
      else
        ⟨(resume_scan E rest).outcome,
          .bdb_get_in_schema_change t.dbname t.get_in_schema_change_rc t.bdberr ::
            (resume_scan E rest).trace⟩ := by
  rfl

/-- Skipped tables contribute no reconstruction step and no marker update, and
leave the outcome to the rest of the scan. -/
theorem resume_scan_skip (E : ResumeEnv) (rest : List TableMeta) :
    ∀ pre : List TableMeta, (∀ u ∈ pre, u.skipped E) →
      (resume_scan E (pre ++ rest)).outcome = (resume_scan E rest).outcome ∧
      ∃ sk, (resume_scan E (pre ++ rest)).trace = sk ++ (resume_scan E rest).trace ∧
        ∀ e ∈ sk, e.isReconstruction = false ∧
          ∀ name rc, e ≠ .bdb_set_in_schema_change_null name rc := by
  intro pre
  induction pre with
  | nil => intro _; exact ⟨rfl, [], rfl, fun e he => absurd he (List.not_mem_nil e)⟩
  | cons u pre ih =>
    intro hskip
    obtain ⟨ho, sk, htr, hsk⟩ := ih (fun v hv => hskip v (List.mem_cons_of_mem _ hv))
    have hu := hskip u (List.mem_cons_self _ _)
    by_cases hfail : u.get_in_schema_change_rc ≠ 0 ∨ u.bdberr ≠ E.BDBERR_NOERROR
    · have hc := resume_scan_cons E u (pre ++ rest)
      rw [if_pos hfail] at hc
      rw [List.cons_append, hc]
      refine ⟨ho, ?_⟩
      refine ⟨.bdb_get_in_schema_change u.dbname u.get_in_schema_change_rc u.bdberr ::
        .logmsg_error :: sk, by simp only [htr, List.cons_append], ?_⟩
      intro e he
      simp only [List.mem_cons] at he
      rcases he with he | he | he
      · subst he; exact ⟨rfl, fun _ _ h => by cases h⟩
      · subst he; exact ⟨rfl, fun _ _ h => by cases h⟩
      · exact hsk e he
    · have hnd : u.has_packed_sc_data = false := by
        rcases hu with h | h
        · exact absurd h hfail
        · exact h
      have hc := resume_scan_cons E u (pre ++ rest)
      rw [if_neg hfail, hnd] at hc
      simp only [Bool.false_eq_true, if_false] at hc
      rw [List.cons_append, hc]
      refine ⟨ho, ?_⟩
      refine ⟨.bdb_get_in_schema_change u.dbname u.get_in_schema_change_rc u.bdberr :: sk,
        by simp only [htr, List.cons_append], ?_⟩
      intro e he
      simp only [List.mem_cons] at he
      rcases he with he | he
      · subst he; exact ⟨rfl, fun _ _ h => by cases h⟩
      · exact hsk e he

/-- The calls made for skipped tables never include `add_table_for_recovery`. -/
theorem skip_trace_quiet (noerr : Int) :
    ∀ pre : List TableMeta, ∀ e ∈ skip_trace noerr pre, e ≠ Call.add_table_for_recovery := by
  intro pre
  induction pre with
  | nil => intro e he; cases he
  | cons u pre ih =>
    intro e he
    simp only [skip_trace, List.mem_append] at he
    rcases he with he | he
    · split_ifs at he <;>
        simp only [List.mem_cons, List.mem_singleton, List.not_mem_nil, or_false] at he
      · rcases he with he | he <;> subst he <;> exact fun h => by cases h
      · subst he; exact fun h => by cases h
    · exact ih e he

/-- Skipped tables leave the outcome to the rest of the scan and contribute
exactly the calls of `skip_trace`. -/
theorem resume_scan_skip_eq (E : ResumeEnv) (rest : List TableMeta) :
    ∀ pre : List TableMeta, (∀ u ∈ pre, u.skipped E) →
      resume_scan E (pre ++ rest) =
        ⟨(resume_scan E rest).outcome,
          skip_trace E.BDBERR_NOERROR pre ++ (resume_scan E rest).trace⟩ := by
  intro pre
  induction pre with
  | nil => intro _; rfl
  | cons u pre ih =>
    intro hskip
    have hrec := ih (fun v hv => hskip v (List.mem_cons_of_mem _ hv))
    have hu := hskip u (List.mem_cons_self _ _)
    have hc := resume_scan_cons E u (pre ++ rest)
    by_cases hfail : u.get_in_schema_change_rc ≠ 0 ∨ u.bdberr ≠ E.BDBERR_NOERROR
    · rw [if_pos hfail, hrec] at hc
      rw [List.cons_append, hc]
      simp only [skip_trace, if_pos hfail, List.cons_append, List.nil_append]
    · have hnd : u.has_packed_sc_data = false := by
        rcases hu with h | h
        · exact absurd h hfail
        · exact h
      rw [if_neg hfail, hnd, hrec] at hc
      simp only [Bool.false_eq_true, if_false] at hc
      rw [List.cons_append, hc]
      simp only [skip_trace, if_neg hfail, List.cons_append, List.nil_append]

/-- The loop body of `add_schema_change_tables` when the resume is not
abandoned, that is, when there is no abort marker or clearing the persisted
marker failed: a failed clear is logged, and the request is then dropped (fast
init, or not a table DDL) or handed to `add_table_for_recovery`. -/
theorem resume_table_goes_on (E : ResumeEnv) (t : TableMeta)
    (hmalloc : E.malloc_ok = true) (hunpack : t.unpack_rc = 0)
    (hgo : E.abort_marker_present = false ∨ E.bdb_set_in_schema_change_rc ≠ 0) :
    resume_table E t =
      ⟨if t.unpacked.fastinit ≠ 0 ∨ t.unpacked.type ≠ E.DBTYPE_TAGGED_TABLE then .returned 0
        else (add_table_for_recovery E.schema t.unpacked).outcome,
        [.malloc_schema_change_type true, .unpack_schema_change_type 0,
          .access_abort_marker E.abort_marker_present] ++
        (if E.abort_marker_present = true then
          [.bdb_set_in_schema_change_null t.dbname E.bdb_set_in_schema_change_rc, .logmsg_error]
         else []) ++
        [.free_abort_filename, .free_packed_sc_data] ++
        (if t.unpacked.fastinit ≠ 0 ∨ t.unpacked.type ≠ E.DBTYPE_TAGGED_TABLE then [.free_s]
         else .add_table_for_recovery :: (add_table_for_recovery E.schema t.unpacked).trace ++
          (if (add_table_for_recovery E.schema t.unpacked).outcome = .aborted then []
           else [.free_s]))⟩ := by
  have hsc : (E.abort_marker_present && decide (E.bdb_set_in_schema_change_rc = 0)) = false := by
    rcases hgo with h | h
    · simp [h]
    · simp [h]
  have hlog : (if E.abort_marker_present = true then
        [Call.bdb_set_in_schema_change_null t.dbname E.bdb_set_in_schema_change_rc] ++
          (if E.bdb_set_in_schema_change_rc ≠ 0 then [Call.logmsg_error] else [])
       else []) =
      (if E.abort_marker_present = true then
        [.bdb_set_in_schema_change_null t.dbname E.bdb_set_in_schema_change_rc, .logmsg_error]
       else []) := by
    rcases hgo with h | h
    · simp [h]
    · simp [h]
  simp only [resume_table, hmalloc, hunpack, hsc, hlog, Bool.not_true, Bool.false_eq_true,
    if_false, ne_eq, not_true_eq_false]
  by_cases hres : t.unpacked.fastinit ≠ 0 ∨ t.unpacked.type ≠ E.DBTYPE_TAGGED_TABLE
  · simp only [ne_eq] at hres
    simp only [if_pos hres]
  · simp only [ne_eq] at hres
    simp only [if_neg hres]
    cases ho : (add_table_for_recovery E.schema t.unpacked).outcome with
    | returned rc => simp
    | aborted => simp

/-- C11 (amended): at a startup in which no migration is already running, the
first table found with persisted request data unpacks successfully and the
operator abort marker is present. When clearing the table's persisted
in-progress marker succeeds, `add_schema_change_tables` clears that marker
(once, and no other) and returns 0 without any shadow reconstruction:
`add_table_for_recovery` is not called. When clearing fails, the failure is
logged right after the clear attempt and the resume goes on as if no marker were
present: the result, and every call after the marker handling, are those of the
same startup without the marker; a request that is a fast init or not a table
DDL is dropped with result 0, and any other is handed to
`add_table_for_recovery`, whose outcome is the outcome of the call. -/
theorem resume_abort_marker (E : ResumeEnv) (pre post : List TableMeta) (t : TableMeta)
    (hrun : E.gbl_schema_change_in_progress = false)
    (hdbs : E.dbs = pre ++ t :: post)
    (hpre : ∀ u ∈ pre, u.skipped E)
    (hget : t.get_in_schema_change_rc = 0 ∧ t.bdberr = E.BDBERR_NOERROR)
    (hdata : t.has_packed_sc_data = true)
    (hmalloc : E.malloc_ok = true) (hunpack : t.unpack_rc = 0)
    (hmark : E.abort_marker_present = true) :
    (E.bdb_set_in_schema_change_rc = 0 →
      (add_schema_change_tables E).outcome = .returned 0 ∧
      Call.bdb_set_in_schema_change_null t.dbname 0 ∈ (add_schema_change_tables E).trace ∧
      (∀ name rc,
        Call.bdb_set_in_schema_change_null name rc ∈ (add_schema_change_tables E).trace →
        name = t.dbname ∧ rc = 0) ∧
      Call.add_table_for_recovery ∉ (add_schema_change_tables E).trace ∧
      (∀ e ∈ (add_schema_change_tables E).trace, e.isReconstruction = false)) ∧
    (E.bdb_set_in_schema_change_rc ≠ 0 →
      (add_schema_change_tables E).outcome = (add_schema_change_tables E.no_marker).outcome ∧
      (∃ cont,
        (add_schema_change_tables E).trace =
          skip_trace E.BDBERR_NOERROR pre ++
            [.bdb_get_in_schema_change t.dbname t.get_in_schema_change_rc t.bdberr,
              .malloc_schema_change_type true, .unpack_schema_change_type 0,
              .access_abort_marker true,
              .bdb_set_in_schema_change_null t.dbname E.bdb_set_in_schema_change_rc,
              .logmsg_error, .free_abort_filename, .free_packed_sc_data] ++ cont ∧
        (add_schema_change_tables E.no_marker).trace =
          skip_trace E.BDBERR_NOERROR pre ++
            [.bdb_get_in_schema_change t.dbname t.get_in_schema_change_rc t.bdberr,
              .malloc_schema_change_type true, .unpack_schema_change_type 0,
              .access_abort_marker false, .free_abort_filename, .free_packed_sc_data] ++ cont ∧
        (t.unpacked.fastinit ≠ 0 ∨ t.unpacked.type ≠ E.DBTYPE_TAGGED_TABLE →
          cont = [.free_s]) ∧
        (t.unpacked.fastinit = 0 → t.unpacked.type = E.DBTYPE_TAGGED_TABLE →
          cont = .add_table_for_recovery :: (add_table_for_recovery E.schema t.unpacked).trace ++
            (if (add_table_for_recovery E.schema t.unpacked).outcome = .aborted then []
             else [.free_s]))) ∧
      (t.unpacked.fastinit ≠ 0 ∨ t.unpacked.type ≠ E.DBTYPE_TAGGED_TABLE →
        (add_schema_change_tables E).outcome = .returned 0 ∧
        Call.add_table_for_recovery ∉ (add_schema_change_tables E).trace) ∧
      (t.unpacked.fastinit = 0 → t.unpacked.type = E.DBTYPE_TAGGED_TABLE →
        (add_schema_change_tables E).outcome =
          (add_table_for_recovery E.schema t.unpacked).outcome ∧
        Call.add_table_for_recovery ∈ (add_schema_change_tables E).trace)) := by
  have hnf : ¬ (t.get_in_schema_change_rc ≠ 0 ∨ t.bdberr ≠ E.BDBERR_NOERROR) := by
    rintro (h | h)
    · exact h hget.1
    · exact h hget.2
  constructor
  · intro hclear
    obtain ⟨ho, sk, htr, hsk⟩ := resume_scan_skip E (t :: post) pre hpre
    have htab : resume_table E t = ⟨.returned 0,
        [.malloc_schema_change_type true, .unpack_schema_change_type 0,
          .access_abort_marker true,
          .bdb_set_in_schema_change_null t.dbname 0, .free_abort_filename,
          .free_packed_sc_data]⟩ := by
      simp [resume_table, hmalloc, hunpack, hmark, hclear]
    have hscan : resume_scan E (t :: post) = ⟨.returned 0,
        [.bdb_get_in_schema_change t.dbname t.get_in_schema_change_rc t.bdberr,
          .malloc_schema_change_type true, .unpack_schema_change_type 0,
          .access_abort_marker true,
          .bdb_set_in_schema_change_null t.dbname 0, .free_abort_filename,
          .free_packed_sc_data]⟩ := by
      rw [resume_scan_cons, if_neg hnf, if_pos hdata, htab]
    have hall : add_schema_change_tables E = ⟨.returned 0, sk ++
        [.bdb_get_in_schema_change t.dbname t.get_in_schema_change_rc t.bdberr,
          .malloc_schema_change_type true, .unpack_schema_change_type 0,
          .access_abort_marker true,
          .bdb_set_in_schema_change_null t.dbname 0, .free_abort_filename,
          .free_packed_sc_data]⟩ := by
      have h1 : add_schema_change_tables E = resume_scan E (pre ++ t :: post) := by
        simp [add_schema_change_tables, hrun, hdbs]
      rw [h1]
      rw [hscan] at ho htr
      cases hr : resume_scan E (pre ++ t :: post) with
      | mk o tr =>
        rw [hr] at ho htr
        simp only at ho htr
        rw [ho, htr]
    rw [hall]
    refine ⟨rfl, by simp, ?_, ?_, ?_⟩
    · intro name rc hmem
      simp only [List.mem_append, List.mem_cons, List.mem_singleton, List.not_mem_nil,
        or_false] at hmem
      rcases hmem with h | h | h | h | h | h | h | h
      · exact absurd rfl ((hsk _ h).2 name rc)
      all_goals cases h
      exact ⟨rfl, rfl⟩
    · intro hmem
      simp only [List.mem_append, List.mem_cons, List.mem_singleton, List.not_mem_nil,
        or_false] at hmem
      rcases hmem with h | h | h | h | h | h | h | h
      · have := (hsk _ h).1
        simp [Call.isReconstruction] at this
      all_goals cases h
    · intro e hmem
      simp only [List.mem_append, List.mem_cons, List.mem_singleton, List.not_mem_nil,
        or_false] at hmem
      rcases hmem with h | h | h | h | h | h | h | h
      · exact (hsk e h).1
      all_goals subst h; rfl
  · intro hclear
    have hskips : ∀ e ∈ skip_trace E.BDBERR_NOERROR pre, e ≠ Call.add_table_for_recovery :=
      skip_trace_quiet E.BDBERR_NOERROR pre
    have hpre' : ∀ u ∈ pre, u.skipped E.no_marker := hpre
    have hnf' : ¬ (t.get_in_schema_change_rc ≠ 0 ∨ t.bdberr ≠ E.no_marker.BDBERR_NOERROR) := hnf
    have hmalloc' : E.no_marker.malloc_ok = true := hmalloc
    have hE : add_schema_change_tables E = resume_scan E (pre ++ t :: post) := by
      simp [add_schema_change_tables, hrun, hdbs]
    have hE' : add_schema_change_tables E.no_marker =
        resume_scan E.no_marker (pre ++ t :: post) := by
      simp [add_schema_change_tables, ResumeEnv.no_marker, hrun, hdbs]
    have hT := resume_table_goes_on E t hmalloc hunpack (Or.inr hclear)
    have hT' := resume_table_goes_on E.no_marker t hmalloc' hunpack (Or.inl rfl)
    rw [hE, hE', resume_scan_skip_eq E _ pre hpre, resume_scan_skip_eq E.no_marker _ pre hpre',
      resume_scan_cons E, resume_scan_cons E.no_marker, if_neg hnf, if_neg hnf', if_pos hdata,
      if_pos hdata, hT, hT']
    simp only [ResumeEnv.no_marker, hmark, if_true, Bool.false_eq_true, if_false,
      List.append_nil, List.cons_append, List.nil_append, List.append_assoc]
    by_cases hres : t.unpacked.fastinit ≠ 0 ∨ t.unpacked.type ≠ E.DBTYPE_TAGGED_TABLE
    · rw [if_pos hres, if_pos hres]
      refine ⟨trivial, ⟨[.free_s], rfl, rfl, fun _ => rfl, ?_⟩, fun _ => ⟨rfl, ?_⟩, ?_⟩
      · intro h1 h2
        rcases hres with h | h
        · exact absurd h1 h
        · exact absurd h2 h
      · intro hmem
        simp only [List.mem_append, List.mem_cons, List.mem_singleton, List.not_mem_nil,
          or_false] at hmem
        rcases hmem with h | h | h | h | h | h | h | h | h | h
        · exact hskips _ h rfl
        all_goals cases h
      · intro h1 h2
        rcases hres with h | h
        · exact absurd h1 h
        · exact absurd h2 h
    · rw [if_neg hres, if_neg hres]
      refine ⟨trivial, ⟨_, rfl, rfl, fun h => absurd h hres, fun _ _ => rfl⟩,
        fun h => absurd h hres, fun _ _ => ⟨rfl, ?_⟩⟩
      simp

/-- Witness for C11 (amended): the sample startup. Table `t0` has no persisted
request, table `t1` has one that unpacks and the abort marker is present. When
the clear succeeds the call returns 0, clears the marker of `t1` and
reconstructs nothing; when the clear fails with 5 the call has the outcome of
the startup without the marker, which is that of `add_table_for_recovery`, and
`add_table_for_recovery` is called. -/
theorem resume_abort_marker_witness :
    sampleResumeEnv.dbs = [{ dbname := "t0" }] ++ sampleTable :: [] ∧
    sampleResumeEnv.abort_marker_present = true ∧
    sampleResumeEnv.bdb_set_in_schema_change_rc = 0 ∧
    ((add_schema_change_tables sampleResumeEnv).outcome = .returned 0 ∧
      Call.bdb_set_in_schema_change_null sampleTable.dbname 0
        ∈ (add_schema_change_tables sampleResumeEnv).trace ∧
      (∀ name rc, Call.bdb_set_in_schema_change_null name rc
          ∈ (add_schema_change_tables sampleResumeEnv).trace →
        name = sampleTable.dbname ∧ rc = 0) ∧
      Call.add_table_for_recovery ∉ (add_schema_change_tables sampleResumeEnv).trace ∧
      (∀ e ∈ (add_schema_change_tables sampleResumeEnv).trace, e.isReconstruction = false)) ∧
    clearFailsEnv.dbs = [{ dbname := "t0" }] ++ sampleTable :: [] ∧
    clearFailsEnv.abort_marker_present = true ∧
    clearFailsEnv.bdb_set_in_schema_change_rc = 5 ∧
    (add_schema_change_tables clearFailsEnv).outcome =
      (add_schema_change_tables clearFailsEnv.no_marker).outcome ∧
    ((add_schema_change_tables clearFailsEnv).outcome =
        (add_table_for_recovery clearFailsEnv.schema sampleTable.unpacked).outcome ∧
      Call.add_table_for_recovery ∈ (add_schema_change_tables clearFailsEnv).trace) :=
  ⟨rfl, rfl, rfl,
    (resume_abort_marker sampleResumeEnv [{ dbname := "t0" }] [] sampleTable rfl rfl
      (fun u hu => by
        simp only [List.mem_singleton] at hu
        subst hu
        exact Or.inr rfl)
      ⟨rfl, rfl⟩ rfl rfl rfl rfl).1 rfl,
    rfl, rfl, rfl,
    ((resume_abort_marker clearFailsEnv [{ dbname := "t0" }] [] sampleTable rfl rfl
      (fun u hu => by
        simp only [List.mem_singleton] at hu
        subst hu
        exact Or.inr rfl)
      ⟨rfl, rfl⟩ rfl rfl rfl rfl).2 (by decide)).1,
    ((resume_abort_marker clearFailsEnv [{ dbname := "t0" }] [] sampleTable rfl rfl
      (fun u hu => by
        simp only [List.mem_singleton] at hu
        subst hu
        exact Or.inr rfl)
      ⟨rfl, rfl⟩ rfl rfl rfl rfl).2 (by decide)).2.2.2 rfl rfl⟩

/-- C11 as written fails: with the abort marker present, when clearing the
persisted marker of `t1` fails (status 5) the call goes on and calls
`add_table_for_recovery`; and when an earlier table holds request data that does
not unpack, the call returns -1 before it reaches `t1`, whose marker is not
cleared. -/
theorem resume_abort_marker_refuted :
    clearFailsEnv.abort_marker_present = true ∧
    Call.add_table_for_recovery ∈ (add_schema_change_tables clearFailsEnv).trace ∧
    Call.newdb_from_schema 7 3 true ∈ (add_schema_change_tables clearFailsEnv).trace ∧
    ¬ abort_resume_as_specified clearFailsEnv sampleTable ∧
    (add_schema_change_tables twoRequestsEnv).outcome = .returned (-1) ∧
    ¬ abort_resume_as_specified twoRequestsEnv sampleTable := by
  refine ⟨rfl, by decide, by decide, ?_, by decide, ?_⟩
  · rintro ⟨-, h⟩
    have h1 := h .add_table_for_recovery (by decide)
    revert h1
    decide
  · rintro ⟨⟨rc, h⟩, -⟩
    have htr : (add_schema_change_tables twoRequestsEnv).trace =
        [.bdb_get_in_schema_change "t0" 0 0, .malloc_schema_change_type true,
          .unpack_schema_change_type 1,
          .sc_errf ("could not unpack the schema change data retrieved " ++
            "from the low level meta table\n"),
          .free_packed_sc_data, .free_s] := by
      decide
    rw [htr] at h
    simp at h

/-! ## Theorems: dry run -/

/-- An outcome line of `dryrun` is never a terminal marker: it starts with `>`. -/
theorem outcome_line_ne_marker (table suffix : String) :
    Call.sbuf2printf (">Table " ++ table ++ suffix) ≠ .sbuf2printf "SUCCESS\n" ∧
    Call.sbuf2printf (">Table " ++ table ++ suffix) ≠ .sbuf2printf "FAILED\n" := by
  constructor <;>
  · intro h
    have h1 := congrArg String.data (Call.sbuf2printf.inj h)
    simp at h1

/-- Every path of `dryrun` ends in the `done` block, with return value 0 or -1,
after a trace that holds no terminal marker and no teardown, and in which the
candidate table was built at most once and exactly when `done` tears it down. -/
theorem dryrun_shape (E : SchemaEnv) (s : schema_change_type) :
    ∃ rc nd pre, dryrun E s = dryrun_done rc nd pre ∧ (rc = 0 ∨ rc = -1) ∧
      (∀ e ∈ pre, e ≠ .sbuf2printf "SUCCESS\n" ∧ e ≠ .sbuf2printf "FAILED\n") ∧
      pre.count (.newdb_from_schema 0 0 true) = (if nd.isSome then 1 else 0) ∧
      pre.count .backout_schemas = 0 ∧ pre.count .freedb = 0 := by
  have hl := outcome_line_ne_marker s.table
  cases hd : E.getdbbyname <;> cases hn : E.newdb_from_schema_ok <;>
    simp only [dryrun, dryrun_candidate, hd, hn, Option.isNone_none, Option.isNone_some,
      Bool.not_false, Bool.not_true, Bool.false_eq_true, if_true, if_false] <;>
    split_ifs <;>
    refine ⟨_, _, _, rfl, by decide, ?_, ?_, ?_, ?_⟩ <;>
    simp [List.count_cons, hl]

/-- C14 (amended): `dryrun` returns 0 or -1, and the last thing it writes to the
output channel is exactly one terminal marker, `SUCCESS` exactly when it returns
0 and `FAILED` exactly when it returns -1; nothing before it is a marker. On
the paths decided by the existence of the table (missing table with alter-only
or fast-init, existing table with add-only or fast-init) and on the table-add
path, exactly one outcome line precedes the marker. -/
theorem dryrun_report (E : SchemaEnv) (s : schema_change_type) :
    ((dryrun E s).rc = 0 ∨ (dryrun E s).rc = -1) ∧
    (∃ pre post, (dryrun E s).trace = pre ++ [.sbuf2printf (marker (dryrun E s).rc)] ++ post ∧
      (∀ e ∈ post, e.isWrite = false) ∧
      (∀ e ∈ pre, e ≠ .sbuf2printf "SUCCESS\n" ∧ e ≠ .sbuf2printf "FAILED\n")) ∧
    (marker (dryrun E s).rc = "SUCCESS\n" ↔ (dryrun E s).rc = 0) ∧
    (marker (dryrun E s).rc = "FAILED\n" ↔ (dryrun E s).rc = -1) ∧
    (E.getdbbyname = none → s.alteronly ≠ 0 ∨ s.fastinit ≠ 0 →
      (dryrun E s).trace.filter Call.isWrite =
        [.sbuf2printf (">Table " ++ s.table ++ " does not exists\n"),
          .sbuf2printf "FAILED\n"]) ∧
    (E.getdbbyname ≠ none → s.addonly ≠ 0 →
      (dryrun E s).trace.filter Call.isWrite =
        [.sbuf2printf (">Table " ++ s.table ++ " already exists\n"),
          .sbuf2printf "FAILED\n"]) ∧
    (E.getdbbyname ≠ none → s.addonly = 0 → s.fastinit ≠ 0 →
      (dryrun E s).trace.filter Call.isWrite =
        [.sbuf2printf (">Table " ++ s.table ++ " will be truncated\n"),
          .sbuf2printf "SUCCESS\n"]) ∧
    (E.getdbbyname = none → s.alteronly = 0 → s.fastinit = 0 →
      E.dyns_load_schema_string_rc = 0 →
      (dryrun E s).trace.filter Call.isWrite =
        [.sbuf2printf (">Table " ++ s.table ++ " will be added.\n"),
          .sbuf2printf "SUCCESS\n"]) := by
  obtain ⟨rc, nd, pre, hshape, hrc, hpre, -, -, -⟩ := dryrun_shape E s
  refine ⟨?_, ?_, ?_, ?_, ?_, ?_, ?_, ?_⟩
  · rw [hshape]; exact hrc
  · rw [hshape]
    refine ⟨pre, if nd.isSome then [.backout_schemas, .freedb] else [], rfl, ?_, hpre⟩
    intro e he
    split_ifs at he
    · simp only [List.mem_cons, List.mem_singleton, List.not_mem_nil, or_false] at he
      rcases he with he | he <;> subst he <;> rfl
    · cases he
  · rw [hshape]
    rcases hrc with h | h <;> subst h
    · show marker (0 : Int) = "SUCCESS\n" ↔ (0 : Int) = 0
      decide
    · show marker (-1 : Int) = "SUCCESS\n" ↔ (-1 : Int) = 0
      decide
  · rw [hshape]
    rcases hrc with h | h <;> subst h
    · show marker (0 : Int) = "FAILED\n" ↔ (0 : Int) = -1
      decide
    · show marker (-1 : Int) = "FAILED\n" ↔ (-1 : Int) = -1
      decide
  · intro hd hflag
    by_cases ha : s.alteronly = 0
    · have hf : s.fastinit ≠ 0 := by
        rcases hflag with h | h
        · exact absurd ha h
        · exact h
      simp [dryrun, dryrun_done, hd, ha, hf, Call.isWrite]
    · simp [dryrun, dryrun_done, hd, ha, Call.isWrite]
  · intro hd ha
    obtain ⟨d, hd'⟩ := Option.ne_none_iff_exists'.mp hd
    simp [dryrun, dryrun_done, hd', ha, Call.isWrite]
  · intro hd ha hf
    obtain ⟨d, hd'⟩ := Option.ne_none_iff_exists'.mp hd
    simp [dryrun, dryrun_done, hd', ha, hf, Call.isWrite]
  · intro hd ha hf hc
    simp [dryrun, dryrun_candidate, dryrun_done, hd, ha, hf, hc, Call.isWrite]

/-- C14 as written fails: for an alter of an existing table whose candidate
table object cannot be built, `dryrun` writes the marker `FAILED` and nothing
else; there is no outcome line. -/
theorem dryrun_no_outcome_line :
    dryrun noCandidateEnv { table := "t1" } =
      ⟨-1, [.getdbbyname true, .dyns_load_schema_string 0, .newdb_from_schema 0 0 false,
        .sbuf2printf "FAILED\n"]⟩ ∧
    (dryrun noCandidateEnv { table := "t1" }).trace.filter Call.isWrite
      = [.sbuf2printf "FAILED\n"] ∧
    ¬ dryrun_report_as_specified noCandidateEnv { table := "t1" } := by
  refine ⟨by decide, by decide, ?_⟩
  rintro ⟨w, -, -, -, h⟩
  have htr : (dryrun noCandidateEnv { table := "t1" }).trace.filter Call.isWrite
      = [.sbuf2printf "FAILED\n"] := by decide
  rw [htr] at h
  simp at h

/-- C15: on every exit path of `dryrun`, the candidate table object is built at
most once, and its schemas are backed out and it is freed exactly as many times
as it was built; when it was built, the back-out and the free are the last two
steps of the call, after the construction. So no candidate object built by the
call is left when it returns. -/
theorem dryrun_teardown (E : SchemaEnv) (s : schema_change_type) :
    (dryrun E s).trace.count .backout_schemas
      = (dryrun E s).trace.count (.newdb_from_schema 0 0 true) ∧
    (dryrun E s).trace.count .freedb
      = (dryrun E s).trace.count (.newdb_from_schema 0 0 true) ∧
    (dryrun E s).trace.count (.newdb_from_schema 0 0 true) ≤ 1 ∧
    (Call.newdb_from_schema 0 0 true ∈ (dryrun E s).trace →
      ∃ pre, (dryrun E s).trace = pre ++ [.backout_schemas, .freedb] ∧
        Call.newdb_from_schema 0 0 true ∈ pre ∧ Call.backout_schemas ∉ pre ∧
        Call.freedb ∉ pre) := by
  obtain ⟨rc, nd, pre, hshape, -, -, hnew, hback, hfree⟩ := dryrun_shape E s
  rw [hshape]
  cases hnd : nd.isSome
  · simp only [hnd, Bool.false_eq_true, if_false] at hnew
    simp [dryrun_done, hnd, List.count_append, List.count_cons, hnew, hback, hfree]
    exact fun h => absurd h (List.count_eq_zero.mp hnew)
  · simp only [hnd, if_true] at hnew
    have hmem : Call.newdb_from_schema 0 0 true ∈ pre :=
      List.count_pos_iff.mp (by omega)
    refine ⟨?_, ?_, ?_, fun _ => ⟨pre ++ [.sbuf2printf (if rc = 0 then "SUCCESS\n"
      else "FAILED\n")], ?_, ?_, ?_, ?_⟩⟩
    · simp [dryrun_done, hnd, List.count_append, List.count_cons, hnew, hback, hfree]
    · simp [dryrun_done, hnd, List.count_append, List.count_cons, hnew, hback, hfree]
    · simp [dryrun_done, hnd, List.count_append, List.count_cons, hnew, hback, hfree]
    · simp [dryrun_done, hnd]
    · exact List.mem_append_left _ hmem
    · simp [List.count_eq_zero.mp hback]
    · simp [List.count_eq_zero.mp hfree]

/-! ## Theorems: partition exchange -/

/-- Reading the command lines only calls `sbuf2gets` and `realloc`: when the
lines were read, every event of the trace is one of the given trace or such a
call. -/
theorem read_cmd_done_quiet (realloc_ok : Nat → Bool) :
    ∀ (input : List (Int × String)) (cmd : Option String) (used alloc : Nat)
      (tr0 : List Call) (cmd' : Option String) (tr' : List Call),
      read_cmd realloc_ok input cmd used alloc tr0 = .done cmd' tr' →
      ∀ e ∈ tr', e ∈ tr0 ∨ (∃ rc, e = Call.sbuf2gets rc) ∨ (∃ n, e = Call.realloc n true) := by
  intro input
  induction input with
  | nil =>
    intro cmd used alloc tr0 cmd' tr' h
    simp only [read_cmd, CmdRead.done.injEq] at h
    obtain ⟨-, rfl⟩ := h
    intro e he
    simp only [List.mem_append, List.mem_singleton] at he
    rcases he with he | he
    · exact Or.inl he
    · exact Or.inr (Or.inl ⟨_, he⟩)
  | cons x rest ih =>
    intro cmd used alloc tr0 cmd' tr' h
    obtain ⟨rc, line⟩ := x
    simp only [read_cmd] at h
    split_ifs at h <;> first
      | (cases h; done)
      | (simp only [CmdRead.done.injEq] at h
         obtain ⟨-, rfl⟩ := h
         intro e he
         simp only [List.mem_append, List.mem_singleton] at he
         rcases he with he | he
         · exact Or.inl he
         · exact Or.inr (Or.inl ⟨_, he⟩))
      | (intro e he
         rcases ih _ _ _ _ _ _ h e he with h' | h'
         · simp only [List.mem_append, List.mem_singleton] at h'
           rcases h' with (h' | h') | h'
           · exact Or.inl h'
           · exact Or.inr (Or.inl ⟨_, h'⟩)
           · exact Or.inr (Or.inr ⟨_, h'⟩)
         · exact Or.inr h')
      | (intro e he
         rcases ih _ _ _ _ _ _ h e he with h' | h'
         · simp only [List.mem_append, List.mem_singleton] at h'
           rcases h' with h' | h'
           · exact Or.inl h'
           · exact Or.inr (Or.inl ⟨_, h'⟩)
         · exact Or.inr h')

/-- The calls of `do_partition` take no lock and write nothing, and the first of
them is the operation. -/
theorem do_partition_quiet (E : PartEnv) (name : String) (cmd : Option String) :
    (do_partition E name cmd).rc = (E.views_do_partition name cmd).1 ∧
    (do_partition E name cmd).xerr = (E.views_do_partition name cmd).2 ∧
    Call.views_do_partition name cmd (E.views_do_partition name cmd).1
      ∈ (do_partition E name cmd).trace ∧
    (∀ e ∈ (do_partition E name cmd).trace,
      e.isLock = false ∧ ∀ text, e ≠ .sbuf2printf text) := by
  unfold do_partition
  by_cases h1 : (E.views_do_partition name cmd).1 = 0 <;>
    by_cases h2 : E.bdb_llog_views_rc = 0 <;>
    simp [h1, h2, Call.isLock]

/-- A trace without `sbuf2printf` events prints nothing. -/
theorem printed_quiet (l : List Call) (h : ∀ e ∈ l, ∀ text, e ≠ .sbuf2printf text) :
    printed l = [] := by
  unfold printed
  rw [List.filterMap_eq_nil_iff]
  intro e he
  cases e <;> first | rfl | exact absurd rfl (h _ he _)

/-- A trace without lock events has no lock event. -/
theorem locks_quiet (l : List Call) (h : ∀ e ∈ l, e.isLock = false) :
    l.filter Call.isLock = [] := by
  rw [List.filter_eq_nil_iff]
  intro e he
  simp [h e he]

/-- C16 (amended): for every exchange whose target line and command lines were
read, `handle_partition` takes the schema write lock, applies the operation,
releases the lock and then writes exactly one reply and flushes; no other lock
event and no other write occurs. The reply is `SUCCESS\n` when the operation
returns 0, and otherwise `FAILED rc <n> err "<text>"\n` (blanks, no equal
signs), where n and text are the error value and error string the operation
left. -/
theorem partition_exchange_reply (E : PartEnv) (rc0 : Int) (line : String)
    (rest : List (Int × String)) (cmd : Option String) (tr : List Call)
    (hin : E.input = (rc0, line) :: rest) (hrc : 0 ≤ rc0)
    (hread : read_cmd E.realloc_ok rest none 0 0 [.sbuf2gets rc0] = .done cmd tr) :
    handle_partition E =
      tr ++ [.wrlock_schema_lk] ++ (do_partition E (strip_newline line) cmd).trace ++
        [.unlock_schema_lk,
          .sbuf2printf (partition_reply (E.views_do_partition (strip_newline line) cmd).1
            (E.views_do_partition (strip_newline line) cmd).2),
          .sbuf2flush] ∧
    (∀ e ∈ tr, e.isLock = false ∧ ∀ text, e ≠ .sbuf2printf text) ∧
    Call.views_do_partition (strip_newline line) cmd
        (E.views_do_partition (strip_newline line) cmd).1
      ∈ (do_partition E (strip_newline line) cmd).trace ∧
    (∀ e ∈ (do_partition E (strip_newline line) cmd).trace,
      e.isLock = false ∧ ∀ text, e ≠ .sbuf2printf text) ∧
    printed (handle_partition E) =
      [partition_reply (E.views_do_partition (strip_newline line) cmd).1
        (E.views_do_partition (strip_newline line) cmd).2] ∧
    (handle_partition E).filter Call.isLock = [.wrlock_schema_lk, .unlock_schema_lk] ∧
    ((E.views_do_partition (strip_newline line) cmd).1 = 0 →
      partition_reply (E.views_do_partition (strip_newline line) cmd).1
        (E.views_do_partition (strip_newline line) cmd).2 = "SUCCESS\n") ∧
    ((E.views_do_partition (strip_newline line) cmd).1 ≠ 0 →
      partition_reply (E.views_do_partition (strip_newline line) cmd).1
          (E.views_do_partition (strip_newline line) cmd).2 =
        "FAILED rc " ++ toString (E.views_do_partition (strip_newline line) cmd).2.errval ++
          " err \"" ++ (E.views_do_partition (strip_newline line) cmd).2.errstr ++ "\"\n") := by
  obtain ⟨hprc, hpx, hpmem, hpq⟩ := do_partition_quiet E (strip_newline line) cmd
  have hshape : handle_partition E =
      tr ++ [.wrlock_schema_lk] ++ (do_partition E (strip_newline line) cmd).trace ++
        [.unlock_schema_lk,
          .sbuf2printf (partition_reply (E.views_do_partition (strip_newline line) cmd).1
            (E.views_do_partition (strip_newline line) cmd).2),
          .sbuf2flush] := by
    have hneg : ¬ rc0 < 0 := not_lt.mpr hrc
    simp only [handle_partition, hin, hneg, if_false, hread, hprc, hpx, List.append_assoc,
      List.cons_append, List.nil_append]
  have htr : ∀ e ∈ tr, e.isLock = false ∧ ∀ text, e ≠ .sbuf2printf text := by
    intro e he
    rcases read_cmd_done_quiet E.realloc_ok rest none 0 0 _ cmd tr hread e he with h | h | h
    · simp only [List.mem_singleton] at h
      subst h
      exact ⟨rfl, fun _ h => by cases h⟩
    · obtain ⟨rc, h⟩ := h
      subst h
      exact ⟨rfl, fun _ h => by cases h⟩
    · obtain ⟨n, h⟩ := h
      subst h
      exact ⟨rfl, fun _ h => by cases h⟩
  refine ⟨hshape, htr, hpmem, hpq, ?_, ?_, ?_, ?_⟩
  · rw [hshape]
    have h1 := printed_quiet tr (fun e he => (htr e he).2)
    have h2 := printed_quiet _ (fun e he => (hpq e he).2)
    unfold printed at h1 h2 ⊢
    simp only [List.filterMap_append, h1, h2, List.nil_append]
    rfl
  · rw [hshape]
    have h1 := locks_quiet tr (fun e he => (htr e he).1)
    have h2 := locks_quiet _ (fun e he => (hpq e he).1)
    simp only [List.filter_append, h1, h2, List.nil_append]
    rfl
  · intro h
    simp [partition_reply, h]
  · intro h
    simp [partition_reply, h]

/-- Witness for C16 (amended): the sample exchange (target `tv1`, command
`CREATE TIME`); the operation fails with error value 5 and error string `bad`,
and the reply is `FAILED rc 5 err "bad"`. -/
theorem partition_exchange_reply_witness :
    samplePartEnv.input = (4, "tv1\n") :: [(12, "CREATE TIME\n"), (2, ".\n")] ∧
    read_cmd samplePartEnv.realloc_ok [(12, "CREATE TIME\n"), (2, ".\n")] none 0 0
        [.sbuf2gets 4]
      = .done (some "CREATE TIME")
          [.sbuf2gets 4, .sbuf2gets 12, .realloc 512 true, .sbuf2gets 2] ∧
    handle_partition samplePartEnv =
      [.sbuf2gets 4, .sbuf2gets 12, .realloc 512 true, .sbuf2gets 2] ++ [.wrlock_schema_lk] ++
        (do_partition samplePartEnv (strip_newline "tv1\n") (some "CREATE TIME")).trace ++
        [.unlock_schema_lk,
          .sbuf2printf (partition_reply
            (samplePartEnv.views_do_partition (strip_newline "tv1\n") (some "CREATE TIME")).1
            (samplePartEnv.views_do_partition (strip_newline "tv1\n") (some "CREATE TIME")).2),
          .sbuf2flush] ∧
    printed (handle_partition samplePartEnv) = ["FAILED rc 5 err \"bad\"\n"] :=
  ⟨rfl, by decide,
    (partition_exchange_reply samplePartEnv 4 "tv1\n" [(12, "CREATE TIME\n"), (2, ".\n")]
      (some "CREATE TIME") [.sbuf2gets 4, .sbuf2gets 12, .realloc 512 true, .sbuf2gets 2]
      rfl (by decide) (by decide)).1,
    by decide⟩

/-- C16 as written fails: in the sample exchange the operation fails with error
value 5 and error string `bad`; the single text written is
`FAILED rc 5 err "bad"`, not the `FAILED rc=5 err="bad"` of the specification. -/
theorem partition_reply_has_no_equal_signs :
    printed (handle_partition samplePartEnv) = ["FAILED rc 5 err \"bad\"\n"] ∧
    partition_reply_as_specified (-1) { errval := 5, errstr := "bad" }
      = "FAILED rc=5 err=\"bad\"\n" ∧
    printed (handle_partition samplePartEnv) ≠
      [partition_reply_as_specified (-1) { errval := 5, errstr := "bad" }] := by
  decide

/-! ## Theorems: time-partition drop -/

/-- C18 fails when the release succeeds: on the master, for an existing table,
with the running slot claimed and the schema fetched, the drop body fails with
1; the slot is released (status 0) and the error string is set, but the error
value is left as the caller passed it, so with a zeroed `errstat` the call
returns SC_VIEW_NOERR (0). Only when the release itself fails is
SC_VIEW_ERR_SC (-7) set. In general the returned value on this path is
SC_VIEW_ERR_SC if the release failed and the caller's prior error value
otherwise. -/
theorem drop_failure_returns_prior_errval :
    sc_timepart_drop_table sampleViewCodes dropFailsEnv "tv1_part0" {} =
      ⟨0, { errval := 0, errstr := "failed to drop table" },
        [.getdbbyname true, .bdb_readlock, .sc_set_running 1 0, .get_csc2_file 0, .malloc_arg,
          .do_schema_change_thd 1, .sc_set_running 0 0, .bdb_rellock,
          .free_schema_change_type]⟩ ∧
    (sc_timepart_drop_table sampleViewCodes dropFailsEnv "tv1_part0" {}).rc
      = sampleViewCodes.SC_VIEW_NOERR ∧
    (sc_timepart_drop_table sampleViewCodes
      { dropFailsEnv with set_running_release_rc := 3 } "tv1_part0" {}).rc
      = sampleViewCodes.SC_VIEW_ERR_SC ∧
    (∀ (V : ViewCodes) (E : TimepartEnv) (name dbname : String) (xerr : errstat),
      E.getdbbyname = some dbname → E.master_is_me = true → E.set_running_claim_rc = 0 →
      E.get_csc2_file_rc = 0 → E.do_schema_change_thd_rc ≠ 0 →
      (sc_timepart_drop_table V E name xerr).rc =
        (if E.set_running_release_rc ≠ 0 then V.SC_VIEW_ERR_SC else xerr.errval) ∧
      Call.sc_set_running 0 E.set_running_release_rc
        ∈ (sc_timepart_drop_table V E name xerr).trace) := by
  refine ⟨by decide, by decide, by decide, ?_⟩
  intro V E name dbname xerr hd hm hc hg hb
  simp [sc_timepart_drop_table, timepart_exit, hd, hm, hc, hg, hb]

end Schemachange
